import Mathlib

/-!
# Kafka load-test scenarios (`test-scenario.js`, `test-scenario-2.js`)

A shallow embedding of the two k6 scenario scripts.  The scripts are sequential
JavaScript driving three external collaborators (the Kafka `Writer`, the Kafka
`Reader` and the `SchemaRegistry`).  The collaborators are an explicit
environment `Env`; every call the script makes to them, every `check` and every
`console.log` is recorded, in program order, in a trace of `Event`s.  A raised
JavaScript exception ends the iteration: the result keeps the state reached so
far together with the error.

Numbers are the small non-negative integers the scripts use (`Nat`); an array
index that may become `-1` is an `Int`.  `Math.floor(a / b)` is `a / b` on
`Nat` for `b ≥ 1`.  `"..." + n` renders `n` in decimal.
-/

namespace KafkaScenario

/-! ## Data model -/

/-- Serialized payload, as produced by `schemaRegistry.serialize`. -/
abbrev Bytes := List Nat

/-- Message object returned by `consumer.consume`. -/
structure Message where
  value : Bytes
  topic : String
  partition : Nat
  offset : Nat
deriving DecidableEq

/-- Exceptions an iteration can end with. -/
inductive JSError where
  /-- Property access on `undefined` -/
  | typeError
  /-- Raised by `producer.produce` -/
  | produceError
  /-- Raised by `consumer.consume` -/
  | consumeError
  /-- Raised by `schemaRegistry.deserialize` -/
  | deserializeError
deriving DecidableEq

/-- Observable steps of an iteration, in program order. -/
inductive Event where
  /-- `new Writer({...})` -/
  | newWriter
  /-- `new Reader({...})` -/
  | newReader
  /-- `producer.produce({ messages })`, with the value of every message of the batch -/
  | produce (values : List Bytes)
  /-- `consumer.consume({ limit })` -/
  | consume (limit : Nat)
  /-- Read of `messages[i]` -/
  | index (i : Int)
  /-- One named predicate of a `check(...)` call and its outcome -/
  | check (name : String) (passed : Bool)
  /-- `console.log(line)` -/
  | log (line : String)
  /-- `producer.close()` -/
  | closeWriter
  /-- `consumer.close()` -/
  | closeReader
deriving DecidableEq

/-- External collaborators of an iteration.  `produce k batch` is the outcome of the
`producer.produce` call made at loop index `k`; `consume limit` is the outcome of
`consumer.consume({limit})`. -/
structure Env where
  serialize : String → Bytes
  deserialize : Bytes → Except JSError String
  produce : Nat → List Bytes → Except JSError Unit
  consume : Nat → Except JSError (List Message)

/-! ## Sequential scripts with exceptions -/

/-- A script fragment: runs from a state, returns a value or raises, and leaves a state. -/
def Script (σ : Type) (α : Type) : Type := σ → Except JSError α × σ

namespace Script

/-- Return without touching the state. -/
def ret {σ α : Type} (a : α) : Script σ α := fun s => (.ok a, s)

/-- Sequencing: a raised exception skips the rest. -/
def andThen {σ α β : Type} (x : Script σ α) (f : α → Script σ β) : Script σ β := fun s =>
  match x s with
  | (.ok a, s1) => f a s1
  | (.error e, s1) => (.error e, s1)

/-- Raise an exception. -/
def raise {σ α : Type} (e : JSError) : Script σ α := fun s => (.error e, s)

/-- Lift the outcome of an external call. -/
def ofExcept {σ α : Type} (r : Except JSError α) : Script σ α := fun s => (r, s)

/-- Update the state. -/
def modify {σ : Type} (f : σ → σ) : Script σ Unit := fun s => (.ok (), f s)

/-- Read from the state. -/
def gets {σ α : Type} (f : σ → α) : Script σ α := fun s => (.ok (f s), s)

end Script

/-- The exception an execution ended with; `none` when it ran to its end. -/
def raised {σ α : Type} (r : Except JSError α × σ) : Option JSError :=
  match r.1 with
  | .ok _ => none
  | .error e => some e

instance (σ : Type) : Monad (Script σ) where
  pure := Script.ret
  bind := Script.andThen

/-- Counted loop `for (let index = 0; index < n; index++) body(index)`, given the list of
the indices still to visit. -/
def forIndices {σ : Type} (body : Nat → Script σ Unit) : List Nat → Script σ Unit
  | [] => Script.ret ()
  | index :: rest => Script.andThen (body index) (fun _ => forIndices body rest)

/-- Loop `for (let index = 0; index < n; index++) body(index)`. -/
def forLoop {σ : Type} (n : Nat) (body : Nat → Script σ Unit) : Script σ Unit :=
  forIndices body (List.range n)

/-- Element `messages[i]` of a JavaScript array; `none` is `undefined`. -/
def jsIndex (messages : List Message) (i : Int) : Option Message :=
  if i < 0 then none else messages.get? i.toNat

/-- The tag `"test-value-string-" + index + "-vu-" + __VU + "-iter-" + __ITER`. -/
def tag (index vu iter : Nat) : String :=
  "test-value-string-" ++ toString index ++ "-vu-" ++ toString vu ++ "-iter-" ++ toString iter

/-- Rendering of a possibly-`null` string in a concatenation. -/
def jsStr : Option String → String
  | none => "null"
  | some s => s

/-- State of a running iteration: the script's mutable variables and the trace so far. -/
structure Run (γ : Type) where
  vars : γ
  trace : List Event
deriving DecidableEq

/-- Record an event at the end of the trace. -/
def emit {γ : Type} (e : Event) : Script (Run γ) Unit :=
  Script.modify (fun s => { s with trace := s.trace ++ [e] })

/-- Assign to the script's variables. -/
def assign {γ : Type} (f : γ → γ) : Script (Run γ) Unit :=
  Script.modify (fun s => { s with vars := f s.vars })

/-- Read the script's variables. -/
def readVar {γ α : Type} (f : γ → α) : Script (Run γ) α :=
  Script.gets (fun s => f s.vars)

/-- Read of `messages[i]` followed by a property access on it (`messages[i].value`,
`messages[i]["offset"]`, `msg["topic"]`): raises a `TypeError` on `undefined`. -/
def messageAt {γ : Type} (messages : List Message) (i : Int) : Script (Run γ) Message := do
  emit (.index i)
  match jsIndex messages i with
  | none => Script.raise .typeError
  | some msg => Script.ret msg

/-! ## `test-scenario.js` -/

/-- The constants `messageAmount` (line 54) and `vus_amount` (line 16) of `test-scenario.js`. -/
structure Config1 where
  messageAmount : Nat
  vus_amount : Nat
deriving DecidableEq

/-- Values written in `test-scenario.js`: `messageAmount = 1000`, `vus_amount = 3`. -/
def script1Config : Config1 := { messageAmount := 1000, vus_amount := 3 }

/-- Constant `topicName` of `test-scenario.js`. -/
def topicName1 : String := "my-topic"

/-- Module-level counters of `test-scenario.js`. -/
structure Vars1 where
  total_written : Nat
  total_read : Nat
deriving DecidableEq

/-- Line 72: `Math.floor(messageAmount / vus_amount)`. -/
def consumerMsgAmount (cfg : Config1) : Nat := cfg.messageAmount / cfg.vus_amount

/-- Body of the produce loop of `test-scenario.js` (lines 59-68). -/
def produceBody1 (env : Env) (vu iter : Nat) (index : Nat) : Script (Run Vars1) Unit := do
  let messages := [env.serialize (tag index vu iter)]
  emit (.produce messages)
  Script.ofExcept (env.produce index messages)
  assign (fun v => { v with total_written := v.total_written + messages.length })

/-- Lines 56-70: only virtual user 1 writes. -/
def writePhase1 (cfg : Config1) (env : Env) (vu iter : Nat) : Script (Run Vars1) Unit := do
  if vu = 1 then
    emit (.log ("VU 1, writing messages. Iter " ++ toString iter))
    forLoop cfg.messageAmount (produceBody1 env vu iter)

/-- Lines 72-97: consume, check, log and close. -/
def readPhase1 (cfg : Config1) (env : Env) (vu iter : Nat) : Script (Run Vars1) Unit := do
  let limit := consumerMsgAmount cfg
  emit (.consume limit)
  let messages ← Script.ofExcept (env.consume limit)
  assign (fun v => { v with total_read := v.total_read + messages.length })
  emit (.log ("Amount of msgs received: " ++ toString messages.length ++ ", VU " ++
    toString vu ++ ", iter " ++ toString iter))
  emit (.check "all messages returned" (decide (messages.length = limit)))
  let m0 ← messageAt messages 0
  let firstMessageValue ← Script.ofExcept (env.deserialize m0.value)
  let mLast ← messageAt messages ((limit : Int) - 1)
  let lastMessageValue ← Script.ofExcept (env.deserialize mLast.value)
  let msg ← messageAt messages 0
  emit (.check "Topic equals to" (decide (msg.topic = topicName1)))
  let mOffset ← messageAt messages 0
  let mPartition ← messageAt messages 0
  emit (.log ("First msg value " ++ firstMessageValue ++ ", offset" ++ toString mOffset.offset ++
    ", partition " ++ toString mPartition.partition ++ ", VU " ++ toString vu ++
    ", iter " ++ toString iter))
  let mOffset ← messageAt messages ((limit : Int) - 1)
  let mPartition ← messageAt messages 0
  emit (.log ("Last msg value " ++ lastMessageValue ++ ", offset" ++ toString mOffset.offset ++
    ", partition " ++ toString mPartition.partition ++ ", VU " ++ toString vu ++
    ", iter " ++ toString iter))
  emit .closeReader

/-- Default function of `test-scenario.js` (lines 44-98): create the Reader, write, read. -/
def iteration1Script (cfg : Config1) (env : Env) (vu iter : Nat) : Script (Run Vars1) Unit := do
  emit .newReader
  writePhase1 cfg env vu iter
  readPhase1 cfg env vu iter

/-- One iteration of `test-scenario.js` by virtual user `vu`, iteration number `iter`,
started with the counters at `written` and `read`. -/
def iteration1 (cfg : Config1) (env : Env) (vu iter : Nat) (written read : Nat) :
    Except JSError Unit × Run Vars1 :=
  iteration1Script cfg env vu iter
    { vars := { total_written := written, total_read := read }, trace := [] }

/-! ## `test-scenario-2.js` -/

/-- The two `let` constants at the top of the default function of `test-scenario-2.js`. -/
structure Config2 where
  messageAmount : Nat
  batchSize : Nat
deriving DecidableEq

/-- Values written in `test-scenario-2.js`: `messageAmount = 9`, `batchSize = 10`. -/
def script2Config : Config2 := { messageAmount := 9, batchSize := 10 }

/-- Constant `topicName` of `test-scenario-2.js`. -/
def topicName2 : String := "topic1"

/-- Local variables of one iteration of `test-scenario-2.js` assigned in the loop. -/
structure Vars2 where
  firstMessageContent : Option String
  lastMessageContent : Option String
deriving DecidableEq

/-- Inner loop (lines 55-63): `batchSize` pushes of the serialized `msgContent`. -/
def buildBatch (env : Env) (batchSize : Nat) (msgContent : String) : List Bytes :=
  (List.range batchSize).foldl (fun messages _ => messages ++ [env.serialize msgContent]) []

/-- Body of the produce loop (lines 48-64). -/
def produceBody2 (cfg : Config2) (env : Env) (vu iter : Nat) (index : Nat) :
    Script (Run Vars2) Unit := do
  let msgContent := tag index vu iter
  if index = 0 then
    assign (fun v => { v with firstMessageContent := some msgContent })
  if (index : Int) = (cfg.messageAmount : Int) - 1 then
    assign (fun v => { v with lastMessageContent := some msgContent })
  let messages := buildBatch env cfg.batchSize msgContent
  emit (.produce messages)
  Script.ofExcept (env.produce index messages)

/-- Produce loop (lines 47-66). -/
def produceLoop2 (cfg : Config2) (env : Env) (vu iter : Nat) : Script (Run Vars2) Unit :=
  forLoop cfg.messageAmount (produceBody2 cfg env vu iter)

/-- Lines 34-69: create the Writer, write every batch, close the Writer, log. -/
def writePhase2 (cfg : Config2) (env : Env) (vu iter : Nat) : Script (Run Vars2) Unit := do
  emit .newWriter
  emit (.log ("VU 1, writing messages. Iter " ++ toString iter))
  produceLoop2 cfg env vu iter
  emit .closeWriter
  let first ← readVar (fun v => v.firstMessageContent)
  emit (.log ("First published msg: " ++ jsStr first))
  let last ← readVar (fun v => v.lastMessageContent)
  emit (.log ("Last published msg: " ++ jsStr last))

/-- Lines 71-95: create the Reader, consume, check the topic, close the Reader. -/
def readPhase2 (cfg : Config2) (env : Env) (vu iter : Nat) : Script (Run Vars2) Unit := do
  emit .newReader
  emit (.consume (cfg.messageAmount * cfg.batchSize))
  let messages ← Script.ofExcept (env.consume (cfg.messageAmount * cfg.batchSize))
  emit (.log ("Amount of msgs received: " ++ toString messages.length ++ ", VU " ++
    toString vu ++ ", iter " ++ toString iter))
  if messages.length ≠ 0 then
    let msg ← messageAt messages 0
    emit (.check "Topic equals to" (decide (msg.topic = topicName2)))
  else
    emit (.log "No messages received")
  emit .closeReader

/-- Default function of `test-scenario-2.js` (lines 29-96). -/
def iteration2Script (cfg : Config2) (env : Env) (vu iter : Nat) : Script (Run Vars2) Unit := do
  writePhase2 cfg env vu iter
  readPhase2 cfg env vu iter

/-- One iteration of `test-scenario-2.js` by virtual user `vu`, iteration number `iter`. -/
def iteration2 (cfg : Config2) (env : Env) (vu iter : Nat) : Except JSError Unit × Run Vars2 :=
  iteration2Script cfg env vu iter
    { vars := { firstMessageContent := none, lastMessageContent := none }, trace := [] }

/-! ## Observations on traces -/

/-- Batches handed to `producer.produce`, in call order. -/
def produceCalls (trace : List Event) : List (List Bytes) :=
  trace.filterMap (fun e => match e with
    | .produce values => some values
    | _ => none)

/-- Limits passed to `consumer.consume`, in call order. -/
def consumeLimits (trace : List Event) : List Nat :=
  trace.filterMap (fun e => match e with
    | .consume limit => some limit
    | _ => none)

/-- Outcomes of the `"Topic equals to"` check, in evaluation order. -/
def topicChecks (trace : List Event) : List Bool :=
  trace.filterMap (fun e => match e with
    | .check name passed => if name = "Topic equals to" then some passed else none
    | _ => none)

/-- Array indices read, in order. -/
def indexReads (trace : List Event) : List Int :=
  trace.filterMap (fun e => match e with
    | .index i => some i
    | _ => none)

/-- Every Reader and every Writer created in the trace has been closed: as many
`close()` calls as constructions, for each kind. -/
def allClosed (trace : List Event) : Prop :=
  trace.count .closeReader = trace.count .newReader ∧
  trace.count .closeWriter = trace.count .newWriter

instance (trace : List Event) : Decidable (allClosed trace) := by
  unfold allClosed; infer_instance

/-- Environment for examples: strings are serialized as their code points, `produce`
never raises and `consume` returns `reply`. -/
def replyEnv (reply : Except JSError (List Message)) : Env where
  serialize := fun s => s.data.map Char.toNat
  deserialize := fun b => .ok (String.mk (b.map Char.ofNat))
  produce := fun _ _ => .ok ()
  consume := fun _ => reply

/-! ## Shapes of traces, used to state what an iteration does -/

/-- Value read back from a list of decimal digit characters. -/
def readDecimal (cs : List Char) : Nat :=
  cs.foldl (fun acc c => acc * 10 + (c.toNat - 48)) 0

/-- A trace segment made of `produce` calls and logged lines only. -/
def OnlyProduce (t : List Event) : Prop :=
  ∀ e ∈ t, (∃ b, e = Event.produce b) ∨ (∃ l, e = Event.log l)

/-- Events of the write phase of `test-scenario.js` when no `produce` call raises. -/
def writeTrace1 (cfg : Config1) (env : Env) (vu iter : Nat) : List Event :=
  if vu = 1 then
    .log ("VU 1, writing messages. Iter " ++ toString iter) ::
      (List.range cfg.messageAmount).map (fun k => .produce [env.serialize (tag k vu iter)])
  else []

/-- Events of the write phase of `test-scenario-2.js` when no `produce` call raises. -/
def writeTrace2 (cfg : Config2) (env : Env) (vu iter : Nat) : List Event :=
  [.newWriter, .log ("VU 1, writing messages. Iter " ++ toString iter)] ++
  (List.range cfg.messageAmount).map (fun k =>
    .produce (List.replicate cfg.batchSize (env.serialize (tag k vu iter)))) ++
  [.closeWriter,
   .log ("First published msg: " ++
     jsStr (if cfg.messageAmount = 0 then none else some (tag 0 vu iter))),
   .log ("Last published msg: " ++
     jsStr (if cfg.messageAmount = 0 then none else some (tag (cfg.messageAmount - 1) vu iter)))]

/-- Events of the read phase of `test-scenario.js` up to and including the
`"all messages returned"` check, when `consume` returned `msgs`. -/
def readHead1 (cfg : Config1) (vu iter : Nat) (msgs : List Message) : List Event :=
  [.consume (consumerMsgAmount cfg),
   .log ("Amount of msgs received: " ++ toString msgs.length ++ ", VU " ++
     toString vu ++ ", iter " ++ toString iter),
   .check "all messages returned" (decide (msgs.length = consumerMsgAmount cfg))]

/-- Events of lines 82-97 of `test-scenario.js` when nothing raises; `l1` and `l2` are the
two logged lines. -/
def readTail1 (cfg : Config1) (m0 : Message) (l1 l2 : String) : List Event :=
  [.index 0, .index ((consumerMsgAmount cfg : Int) - 1), .index 0,
   .check "Topic equals to" (decide (m0.topic = topicName1)),
   .index 0, .index 0, .log l1,
   .index ((consumerMsgAmount cfg : Int) - 1), .index 0, .log l2, .closeReader]

/-- A trace segment made of array reads only. -/
def OnlyIndex (t : List Event) : Prop := ∀ e ∈ t, ∃ i, e = Event.index i

/-- Events of the read phase of `test-scenario-2.js` when `consume` returned `msgs`. -/
def readTrace2 (cfg : Config2) (vu iter : Nat) (msgs : List Message) : List Event :=
  [.newReader, .consume (cfg.messageAmount * cfg.batchSize),
   .log ("Amount of msgs received: " ++ toString msgs.length ++ ", VU " ++
     toString vu ++ ", iter " ++ toString iter)] ++
  (match msgs with
   | [] => [.log "No messages received"]
   | m :: _ => [.index 0, .check "Topic equals to" (decide (m.topic = topicName2))]) ++
  [.closeReader]

/-! ## Evaluation lemmas for scripts -/

theorem filterMap_total {α β : Type} (f : α → Option β) (g : α → β)
    (h : ∀ a, f a = some (g a)) (l : List α) : l.filterMap f = l.map g := by
  induction l with
  | nil => rfl
  | cons a l ih => simp [List.filterMap_cons, h, ih]

theorem bind_eq {σ α β : Type} (x : Script σ α) (f : α → Script σ β) :
    (x >>= f) = Script.andThen x f := rfl

theorem pure_eq {σ α : Type} (a : α) : (pure a : Script σ α) = Script.ret a := rfl

theorem andThen_emit {γ β : Type} (e : Event) (f : Unit → Script (Run γ) β) (s : Run γ) :
    Script.andThen (emit e) f s = f () { s with trace := s.trace ++ [e] } := rfl

theorem andThen_assign {γ β : Type} (g : γ → γ) (f : Unit → Script (Run γ) β) (s : Run γ) :
    Script.andThen (assign g) f s = f () { s with vars := g s.vars } := rfl

theorem andThen_readVar {γ α β : Type} (g : γ → α) (f : α → Script (Run γ) β) (s : Run γ) :
    Script.andThen (readVar g) f s = f (g s.vars) s := rfl

theorem andThen_ret {σ α β : Type} (a : α) (f : α → Script σ β) (s : σ) :
    Script.andThen (Script.ret a) f s = f a s := rfl

theorem andThen_ok {σ α β : Type} (a : α) (f : α → Script σ β) (s : σ) :
    Script.andThen (Script.ofExcept (.ok a)) f s = f a s := rfl

theorem andThen_error {σ α β : Type} (e : JSError) (f : α → Script σ β) (s : σ) :
    Script.andThen (Script.ofExcept (.error e)) f s = (.error e, s) := rfl

theorem andThen_raise {σ α β : Type} (e : JSError) (f : α → Script σ β) (s : σ) :
    Script.andThen (Script.raise e : Script σ α) f s = (.error e, s) := rfl

theorem andThen_assoc {σ α β γ : Type} (x : Script σ α) (f : α → Script σ β)
    (g : β → Script σ γ) :
    Script.andThen (Script.andThen x f) g = Script.andThen x (fun a => Script.andThen (f a) g) := by
  funext s
  simp only [Script.andThen]
  rcases x s with ⟨r, s1⟩
  cases r <;> rfl

theorem forIndices_append {σ : Type} (body : Nat → Script σ Unit) (l1 l2 : List Nat) :
    forIndices body (l1 ++ l2) =
      Script.andThen (forIndices body l1) (fun _ => forIndices body l2) := by
  induction l1 with
  | nil => rfl
  | cons k rest ih =>
    show Script.andThen (body k) (fun _ => forIndices body (rest ++ l2)) =
      Script.andThen (Script.andThen (body k) (fun _ => forIndices body rest)) _
    rw [andThen_assoc]
    simp only [ih]

theorem forLoop_succ {σ : Type} (body : Nat → Script σ Unit) (n : Nat) :
    forLoop (n + 1) body = Script.andThen (forLoop n body) (fun _ => body n) := by
  have h : forIndices body [n] = body n := by
    funext s
    simp only [forIndices, Script.andThen]
    rcases body n s with ⟨r, s1⟩
    cases r <;> rfl
  simp only [forLoop, List.range_succ, forIndices_append, h]

theorem buildBatch_eq (env : Env) (batchSize : Nat) (msgContent : String) :
    buildBatch env batchSize msgContent = List.replicate batchSize (env.serialize msgContent) := by
  unfold buildBatch
  induction batchSize with
  | zero => rfl
  | succ n ih =>
    rw [List.range_succ, List.foldl_append, ih]
    simp [List.replicate_succ']

/-! ## Decimal rendering -/

theorem digitChar_ne_dash (d : Nat) (hd : d < 10) : Nat.digitChar d ≠ '-' := by
  interval_cases d <;> decide

theorem digitChar_value (d : Nat) (hd : d < 10) : (Nat.digitChar d).toNat - 48 = d := by
  interval_cases d <;> rfl

theorem toDigitsCore_acc (fuel n : Nat) (ds : List Char) :
    Nat.toDigitsCore 10 fuel n ds = Nat.toDigitsCore 10 fuel n [] ++ ds := by
  induction fuel generalizing n ds with
  | zero => simp [Nat.toDigitsCore]
  | succ fuel ih =>
    simp only [Nat.toDigitsCore]
    split_ifs
    · rfl
    · rw [ih (n / 10) (Nat.digitChar (n % 10) :: ds), ih (n / 10) [Nat.digitChar (n % 10)]]
      simp

theorem readDecimal_snoc (cs : List Char) (c : Char) :
    readDecimal (cs ++ [c]) = readDecimal cs * 10 + (c.toNat - 48) := by
  simp [readDecimal, List.foldl_append]

theorem readDecimal_toDigitsCore (fuel n : Nat) (h : n < fuel) :
    readDecimal (Nat.toDigitsCore 10 fuel n []) = n := by
  induction fuel generalizing n with
  | zero => omega
  | succ fuel ih =>
    simp only [Nat.toDigitsCore]
    split_ifs with h0
    · have hn : n < 10 := by omega
      have hmod : n % 10 = n := Nat.mod_eq_of_lt hn
      simp [readDecimal, hmod, digitChar_value n hn]
    · rw [toDigitsCore_acc, readDecimal_snoc, ih (n / 10) (by omega),
        digitChar_value (n % 10) (Nat.mod_lt _ (by decide))]
      omega

theorem dash_not_mem_toDigitsCore (fuel n : Nat) : '-' ∉ Nat.toDigitsCore 10 fuel n [] := by
  induction fuel generalizing n with
  | zero => simp [Nat.toDigitsCore]
  | succ fuel ih =>
    simp only [Nat.toDigitsCore]
    split_ifs
    · simp [Ne.symm (digitChar_ne_dash (n % 10) (Nat.mod_lt _ (by decide)))]
    · rw [toDigitsCore_acc]
      simp [ih (n / 10), Ne.symm (digitChar_ne_dash (n % 10) (Nat.mod_lt _ (by decide)))]

theorem toString_data (n : Nat) : (toString n).data = Nat.toDigits 10 n := rfl

theorem readDecimal_toString (n : Nat) : readDecimal (toString n).data = n :=
  readDecimal_toDigitsCore (n + 1) n (Nat.lt_succ_self n)

theorem dash_not_mem_toString (n : Nat) : '-' ∉ (toString n).data :=
  dash_not_mem_toDigitsCore (n + 1) n

/-- Two lists that agree after a first `'-'` split at the same place. -/
theorem split_at_dash (a b r q : List Char) (ha : '-' ∉ a) (hb : '-' ∉ b)
    (h : a ++ '-' :: r = b ++ '-' :: q) : a = b ∧ r = q := by
  induction a generalizing b with
  | nil =>
    cases b with
    | nil => simpa using h
    | cons c b =>
      simp only [List.nil_append, List.cons_append, List.cons.injEq] at h
      exact absurd h.1.symm (fun hc => hb (hc ▸ List.mem_cons_self _ _))
  | cons c a ih =>
    cases b with
    | nil =>
      simp only [List.nil_append, List.cons_append, List.cons.injEq] at h
      exact absurd h.1 (fun hc => ha (hc ▸ List.mem_cons_self _ _))
    | cons d b =>
      simp only [List.cons_append, List.cons.injEq] at h
      have := ih b (fun hm => ha (List.mem_cons_of_mem _ hm))
        (fun hm => hb (List.mem_cons_of_mem _ hm)) h.2
      exact ⟨by rw [h.1, this.1], this.2⟩

theorem tag_data (index vu iter : Nat) :
    (tag index vu iter).data =
      "test-value-string-".data ++ ((toString index).data ++ '-' :: ('v' :: 'u' :: '-' ::
        ((toString vu).data ++ '-' :: ('i' :: 't' :: 'e' :: 'r' :: '-' ::
          (toString iter).data)))) := by
  simp [tag, String.data_append]

theorem tag_injective (i v t i' v' t' : Nat) (h : tag i v t = tag i' v' t') :
    i = i' ∧ v = v' ∧ t = t' := by
  have hd : (tag i v t).data = (tag i' v' t').data := by rw [h]
  rw [tag_data, tag_data] at hd
  have h1 := List.append_cancel_left hd
  rcases split_at_dash _ _ _ _ (dash_not_mem_toString i) (dash_not_mem_toString i') h1
    with ⟨hi, h2⟩
  simp only [List.cons.injEq, true_and] at h2
  rcases split_at_dash _ _ _ _ (dash_not_mem_toString v) (dash_not_mem_toString v') h2
    with ⟨hv, h3⟩
  simp only [List.cons.injEq, true_and] at h3
  refine ⟨?_, ?_, ?_⟩
  · rw [← readDecimal_toString i, hi, readDecimal_toString]
  · rw [← readDecimal_toString v, hv, readDecimal_toString]
  · rw [← readDecimal_toString t, h3, readDecimal_toString]

/-! ## The produce loops when `producer.produce` does not raise -/

theorem produceBody1_ok (env : Env) (vu iter index : Nat) (s : Run Vars1)
    (hp : ∀ k b, env.produce k b = .ok ()) :
    produceBody1 env vu iter index s =
      (.ok (), { vars := { s.vars with total_written := s.vars.total_written + 1 },
                 trace := s.trace ++ [.produce [env.serialize (tag index vu iter)]] }) := by
  simp only [produceBody1, bind_eq, andThen_emit, hp, andThen_ok]
  rfl

theorem produceLoop1_ok (env : Env) (vu iter : Nat) (s : Run Vars1)
    (hp : ∀ k b, env.produce k b = .ok ()) (n : Nat) :
    forLoop n (produceBody1 env vu iter) s =
      (.ok (), { vars := { s.vars with total_written := s.vars.total_written + n },
                 trace := s.trace ++
                   (List.range n).map (fun k => .produce [env.serialize (tag k vu iter)]) }) := by
  induction n with
  | zero => simp [forLoop, forIndices, Script.ret]
  | succ n ih =>
    rw [forLoop_succ]
    simp only [Script.andThen, ih, produceBody1_ok env vu iter n _ hp]
    simp [List.range_succ, Nat.add_assoc]

theorem produceBody2_ok (cfg : Config2) (env : Env) (vu iter index : Nat) (s : Run Vars2)
    (hp : ∀ k b, env.produce k b = .ok ()) :
    produceBody2 cfg env vu iter index s =
      (.ok (), { vars :=
                  { firstMessageContent :=
                      if index = 0 then some (tag index vu iter) else s.vars.firstMessageContent,
                    lastMessageContent :=
                      if index + 1 = cfg.messageAmount then some (tag index vu iter)
                      else s.vars.lastMessageContent },
                 trace := s.trace ++
                   [.produce (List.replicate cfg.batchSize (env.serialize (tag index vu iter)))] }) := by
  have hlast : ((index : Int) = (cfg.messageAmount : Int) - 1) ↔ index + 1 = cfg.messageAmount := by
    omega
  simp only [produceBody2, bind_eq, pure_eq, hp, buildBatch_eq, hlast]
  split_ifs <;> rfl

theorem produceLoop2_ok (cfg : Config2) (env : Env) (vu iter : Nat) (s : Run Vars2)
    (hp : ∀ k b, env.produce k b = .ok ()) (n : Nat) (hn : n ≤ cfg.messageAmount) :
    forLoop n (produceBody2 cfg env vu iter) s =
      (.ok (), { vars :=
                  { firstMessageContent :=
                      if n = 0 then s.vars.firstMessageContent else some (tag 0 vu iter),
                    lastMessageContent :=
                      if n = cfg.messageAmount ∧ 0 < n then some (tag (cfg.messageAmount - 1) vu iter)
                      else s.vars.lastMessageContent },
                 trace := s.trace ++ (List.range n).map (fun k =>
                   .produce (List.replicate cfg.batchSize (env.serialize (tag k vu iter)))) }) := by
  induction n with
  | zero => simp [forLoop, forIndices, Script.ret]
  | succ n ih =>
    rw [forLoop_succ]
    simp only [Script.andThen, ih (by omega), produceBody2_ok cfg env vu iter n _ hp,
      List.range_succ, List.map_append, List.map_cons, List.map_nil, List.append_assoc]
    have hne : ¬ (n = cfg.messageAmount ∧ 0 < n) := by omega
    have hf : (if n = 0 then some (tag n vu iter)
        else if n = 0 then s.vars.firstMessageContent else some (tag 0 vu iter)) =
        (if n + 1 = 0 then s.vars.firstMessageContent else some (tag 0 vu iter)) := by
      by_cases h0 : n = 0
      · subst h0; rfl
      · simp [h0]
    have hl : (if n + 1 = cfg.messageAmount then some (tag n vu iter)
        else if n = cfg.messageAmount ∧ 0 < n then some (tag (cfg.messageAmount - 1) vu iter)
          else s.vars.lastMessageContent) =
        (if n + 1 = cfg.messageAmount ∧ 0 < n + 1 then some (tag (cfg.messageAmount - 1) vu iter)
          else s.vars.lastMessageContent) := by
      by_cases h1 : n + 1 = cfg.messageAmount
      · have hm : cfg.messageAmount - 1 = n := by omega
        have hpos : n + 1 = cfg.messageAmount ∧ 0 < n + 1 := ⟨h1, by omega⟩
        rw [if_pos h1, if_pos hpos, hm]
      · simp [h1, hne]
    rw [hf, hl]

/-! ## The produce loops in any environment -/

theorem OnlyProduce.nil : OnlyProduce [] := by
  intro e he; cases he

theorem OnlyProduce.append {t u : List Event} (ht : OnlyProduce t) (hu : OnlyProduce u) :
    OnlyProduce (t ++ u) := by
  intro e he
  rcases List.mem_append.mp he with h | h
  · exact ht e h
  · exact hu e h

theorem OnlyProduce.count_eq_zero {t : List Event} (ht : OnlyProduce t) (e : Event)
    (he : ∀ b, e ≠ Event.produce b) (hl : ∀ l, e ≠ Event.log l) : t.count e = 0 := by
  apply List.count_eq_zero_of_not_mem
  intro hmem
  rcases ht e hmem with ⟨b, hb⟩ | ⟨l, hb⟩
  · exact he b hb
  · exact hl l hb

theorem OnlyProduce.singleton_produce (b : List Bytes) : OnlyProduce [.produce b] := by
  intro e he
  exact Or.inl ⟨b, List.mem_singleton.mp he⟩

theorem OnlyProduce.singleton_log (l : String) : OnlyProduce [.log l] := by
  intro e he
  exact Or.inr ⟨l, List.mem_singleton.mp he⟩

theorem OnlyProduce.consumeLimits_nil {t : List Event} (ht : OnlyProduce t) :
    consumeLimits t = [] := by
  unfold consumeLimits
  rw [List.filterMap_eq_nil_iff]
  intro e he
  rcases ht e he with ⟨b, rfl⟩ | ⟨l, rfl⟩ <;> rfl

theorem OnlyProduce.topicChecks_nil {t : List Event} (ht : OnlyProduce t) :
    topicChecks t = [] := by
  unfold topicChecks
  rw [List.filterMap_eq_nil_iff]
  intro e he
  rcases ht e he with ⟨b, rfl⟩ | ⟨l, rfl⟩ <;> rfl

theorem OnlyProduce.indexReads_nil {t : List Event} (ht : OnlyProduce t) :
    indexReads t = [] := by
  unfold indexReads
  rw [List.filterMap_eq_nil_iff]
  intro e he
  rcases ht e he with ⟨b, rfl⟩ | ⟨l, rfl⟩ <;> rfl

theorem forLoop_trace {γ : Type} (body : Nat → Script (Run γ) Unit)
    (hbody : ∀ k s, ∃ t, (body k s).2.trace = s.trace ++ t ∧ OnlyProduce t) (n : Nat)
    (s : Run γ) : ∃ t, (forLoop n body s).2.trace = s.trace ++ t ∧ OnlyProduce t := by
  induction n with
  | zero => exact ⟨[], by simp [forLoop, forIndices, Script.ret], OnlyProduce.nil⟩
  | succ n ih =>
    rw [forLoop_succ]
    rcases ih with ⟨t, ht, hpt⟩
    simp only [Script.andThen]
    rcases hloop : forLoop n body s with ⟨r, s1⟩
    rw [hloop] at ht
    cases r with
    | error e => exact ⟨t, ht, hpt⟩
    | ok u =>
      rcases hbody n s1 with ⟨t2, ht2, hpt2⟩
      refine ⟨t ++ t2, ?_, hpt.append hpt2⟩
      simp only at ht ⊢
      rw [ht2, ht, List.append_assoc]

theorem produceBody1_trace (env : Env) (vu iter k : Nat) (s : Run Vars1) :
    ∃ t, (produceBody1 env vu iter k s).2.trace = s.trace ++ t ∧ OnlyProduce t := by
  refine ⟨[.produce [env.serialize (tag k vu iter)]], ?_, ?_⟩
  · simp only [produceBody1, bind_eq, andThen_emit]
    cases env.produce k [env.serialize (tag k vu iter)] <;> rfl
  · exact OnlyProduce.singleton_produce _

theorem produceBody2_trace (cfg : Config2) (env : Env) (vu iter k : Nat) (s : Run Vars2) :
    ∃ t, (produceBody2 cfg env vu iter k s).2.trace = s.trace ++ t ∧ OnlyProduce t := by
  refine ⟨[.produce (buildBatch env cfg.batchSize (tag k vu iter))], ?_, ?_⟩
  · simp only [produceBody2, bind_eq, pure_eq]
    split_ifs <;>
      simp only [andThen_assign, andThen_ret, andThen_emit] <;>
      cases env.produce k (buildBatch env cfg.batchSize (tag k vu iter)) <;> rfl
  · exact OnlyProduce.singleton_produce _

/-! ## The write phases -/

theorem writePhase1_trace (cfg : Config1) (env : Env) (vu iter : Nat) (s : Run Vars1) :
    ∃ t, (writePhase1 cfg env vu iter s).2.trace = s.trace ++ t ∧ OnlyProduce t := by
  by_cases hv : vu = 1
  · simp only [writePhase1, hv, if_true, bind_eq, andThen_emit]
    rcases forLoop_trace (produceBody1 env 1 iter) (produceBody1_trace env 1 iter)
      cfg.messageAmount { s with trace := s.trace ++
        [.log ("VU 1, writing messages. Iter " ++ toString iter)] } with ⟨t, ht, hpt⟩
    refine ⟨[.log ("VU 1, writing messages. Iter " ++ toString iter)] ++ t, ?_,
      (OnlyProduce.singleton_log _).append hpt⟩
    rw [ht, List.append_assoc]
  · refine ⟨[], ?_, OnlyProduce.nil⟩
    simp [writePhase1, hv, pure_eq, Script.ret]

theorem writeTrace1_onlyProduce (cfg : Config1) (env : Env) (vu iter : Nat) :
    OnlyProduce (writeTrace1 cfg env vu iter) := by
  intro e he
  unfold writeTrace1 at he
  split_ifs at he
  · rcases List.mem_cons.mp he with rfl | hm
    · exact Or.inr ⟨_, rfl⟩
    · rcases List.mem_map.mp hm with ⟨k, _, rfl⟩
      exact Or.inl ⟨_, rfl⟩
  · cases he

theorem produceCalls_writeTrace1 (cfg : Config1) (env : Env) (vu iter : Nat) :
    produceCalls (writeTrace1 cfg env vu iter) =
      if vu = 1 then (List.range cfg.messageAmount).map (fun k => [env.serialize (tag k vu iter)])
      else [] := by
  unfold writeTrace1
  split_ifs
  · simp only [produceCalls, List.filterMap_cons, List.filterMap_map]
    exact filterMap_total _ _ (fun _ => rfl) _
  · rfl

theorem writePhase1_ok (cfg : Config1) (env : Env) (vu iter : Nat) (s : Run Vars1)
    (hp : ∀ k b, env.produce k b = .ok ()) :
    writePhase1 cfg env vu iter s =
      (.ok (), { vars := { s.vars with total_written :=
                    s.vars.total_written + (if vu = 1 then cfg.messageAmount else 0) },
                 trace := s.trace ++ writeTrace1 cfg env vu iter }) := by
  by_cases hv : vu = 1
  · simp only [writePhase1, writeTrace1, hv, if_true, bind_eq, andThen_emit,
      produceLoop1_ok env 1 iter _ hp, List.append_assoc, List.singleton_append]
  · simp [writePhase1, writeTrace1, hv, pure_eq, Script.ret]

theorem writePhase2_ok (cfg : Config2) (env : Env) (vu iter : Nat)
    (hp : ∀ k b, env.produce k b = .ok ()) :
    writePhase2 cfg env vu iter
        { vars := { firstMessageContent := none, lastMessageContent := none }, trace := [] } =
      (.ok (), { vars :=
                  { firstMessageContent :=
                      if cfg.messageAmount = 0 then none else some (tag 0 vu iter),
                    lastMessageContent :=
                      if cfg.messageAmount = 0 then none
                      else some (tag (cfg.messageAmount - 1) vu iter) },
                 trace := writeTrace2 cfg env vu iter }) := by
  simp only [writePhase2, produceLoop2, bind_eq, andThen_emit, Script.andThen,
    produceLoop2_ok cfg env vu iter _ hp cfg.messageAmount (le_refl _)]
  by_cases hm : cfg.messageAmount = 0
  · simp [hm, emit, readVar, Script.modify, Script.gets, writeTrace2]
  · have hpos : 0 < cfg.messageAmount := Nat.pos_of_ne_zero hm
    simp [hm, hpos, emit, readVar, Script.modify, Script.gets, writeTrace2]

/-- Case analysis of the write phase of `test-scenario-2.js`: it either raises with the
Writer created and not closed, or runs to its end after closing the Writer it created. -/
theorem writePhase2_cases (cfg : Config2) (env : Env) (vu iter : Nat) (s : Run Vars2) :
    ∃ t l0, OnlyProduce t ∧
      ((∃ e, (writePhase2 cfg env vu iter s).1 = .error e ∧
          (writePhase2 cfg env vu iter s).2.trace = s.trace ++ (.newWriter :: .log l0 :: t)) ∨
       ((writePhase2 cfg env vu iter s).1 = .ok () ∧ ∃ l1 l2,
          (writePhase2 cfg env vu iter s).2.trace =
            s.trace ++ (.newWriter :: .log l0 :: t ++ [.closeWriter, .log l1, .log l2]))) := by
  simp only [writePhase2, produceLoop2, bind_eq, andThen_emit]
  rcases forLoop_trace (produceBody2 cfg env vu iter) (produceBody2_trace cfg env vu iter)
      cfg.messageAmount { s with trace := s.trace ++ [.newWriter] ++
        [.log ("VU 1, writing messages. Iter " ++ toString iter)] } with ⟨t, ht, hpt⟩
  simp only [Script.andThen]
  rcases hloop : forLoop cfg.messageAmount (produceBody2 cfg env vu iter)
      { s with trace := s.trace ++ [.newWriter] ++
        [.log ("VU 1, writing messages. Iter " ++ toString iter)] } with ⟨r, s1⟩
  rw [hloop] at ht
  simp only at ht
  cases r with
  | error e =>
    refine ⟨t, "VU 1, writing messages. Iter " ++ toString iter, hpt, Or.inl ⟨e, rfl, ?_⟩⟩
    simp [ht]
  | ok u =>
    refine ⟨t, "VU 1, writing messages. Iter " ++ toString iter, hpt,
      Or.inr ⟨rfl, "First published msg: " ++ jsStr s1.vars.firstMessageContent,
        "Last published msg: " ++ jsStr s1.vars.lastMessageContent, ?_⟩⟩
    simp [emit, readVar, Script.modify, Script.gets, ht]

/-! ## The read phases -/

theorem messageAt_some {γ β : Type} (messages : List Message) (i : Int) (m : Message)
    (h : jsIndex messages i = some m) (f : Message → Script (Run γ) β) (s : Run γ) :
    Script.andThen (messageAt messages i) f s = f m { s with trace := s.trace ++ [.index i] } := by
  simp only [messageAt, bind_eq, andThen_assoc, andThen_emit, h]
  rfl

theorem messageAt_none {γ β : Type} (messages : List Message) (i : Int)
    (h : jsIndex messages i = none) (f : Message → Script (Run γ) β) (s : Run γ) :
    Script.andThen (messageAt messages i) f s =
      (.error .typeError, { s with trace := s.trace ++ [.index i] }) := by
  simp only [messageAt, bind_eq, andThen_assoc, andThen_emit, h]
  rfl

/-- Case analysis of the read phase of `test-scenario.js`: either `consume` raises, or it
returns `msgs`, the counter `total_read` grows by `msgs.length`, and the phase either raises
after reading array elements only, or runs to its end with `msgs[0]` and
`msgs[consumerMsgAmount - 1]` both defined. -/
theorem readPhase1_cases (cfg : Config1) (env : Env) (vu iter : Nat) (s : Run Vars1) :
    (∃ e, env.consume (consumerMsgAmount cfg) = .error e ∧
      readPhase1 cfg env vu iter s =
        (.error e, { s with trace := s.trace ++ [.consume (consumerMsgAmount cfg)] })) ∨
    (∃ msgs, env.consume (consumerMsgAmount cfg) = .ok msgs ∧
      ∃ r t, readPhase1 cfg env vu iter s =
        (r, { vars := { s.vars with total_read := s.vars.total_read + msgs.length },
              trace := s.trace ++ (readHead1 cfg vu iter msgs ++ t) }) ∧
        ((∃ e, r = .error e ∧ OnlyIndex t ∧
            ((e = .typeError ∧ (jsIndex msgs 0 = none ∨
                jsIndex msgs ((consumerMsgAmount cfg : Int) - 1) = none)) ∨
              (∃ m, (jsIndex msgs 0 = some m ∨
                  jsIndex msgs ((consumerMsgAmount cfg : Int) - 1) = some m) ∧
                env.deserialize m.value = .error e))) ∨
         (r = .ok () ∧ ∃ m0 mLast l1 l2, jsIndex msgs 0 = some m0 ∧
            jsIndex msgs ((consumerMsgAmount cfg : Int) - 1) = some mLast ∧
            t = readTail1 cfg m0 l1 l2))) := by
  rcases hc : env.consume (consumerMsgAmount cfg) with e | msgs
  · left
    refine ⟨e, rfl, ?_⟩
    simp only [readPhase1, bind_eq, andThen_emit, hc, andThen_error]
  · right
    refine ⟨msgs, rfl, ?_⟩
    simp only [readPhase1, bind_eq, andThen_emit, hc, andThen_ok, andThen_assign]
    rcases h0 : jsIndex msgs 0 with _ | m0
    · refine ⟨_, [.index 0], ?_, Or.inl ⟨.typeError, rfl, ?_, Or.inl ⟨rfl, Or.inl rfl⟩⟩⟩
      · simp [messageAt_none _ _ h0, readHead1]
      · intro e he; exact ⟨0, List.mem_singleton.mp he⟩
    · simp only [messageAt_some _ _ _ h0]
      rcases hd0 : env.deserialize m0.value with e | v0
      · refine ⟨_, [.index 0], ?_, Or.inl ⟨e, rfl, ?_, Or.inr ⟨m0, Or.inl rfl, hd0⟩⟩⟩
        · simp [andThen_error, readHead1]
        · intro e he; exact ⟨0, List.mem_singleton.mp he⟩
      · simp only [andThen_ok]
        rcases hL : jsIndex msgs ((consumerMsgAmount cfg : Int) - 1) with _ | mLast
        · refine ⟨_, [.index 0, .index ((consumerMsgAmount cfg : Int) - 1)], ?_,
            Or.inl ⟨.typeError, rfl, ?_, Or.inl ⟨rfl, Or.inr rfl⟩⟩⟩
          · simp [messageAt_none _ _ hL, readHead1]
          · intro e he
            simp only [List.mem_cons, List.mem_singleton, List.not_mem_nil, or_false] at he
            rcases he with rfl | rfl
            · exact ⟨_, rfl⟩
            · exact ⟨_, rfl⟩
        · simp only [messageAt_some _ _ _ hL]
          rcases hdL : env.deserialize mLast.value with e | vL
          · refine ⟨_, [.index 0, .index ((consumerMsgAmount cfg : Int) - 1)], ?_,
              Or.inl ⟨e, rfl, ?_, Or.inr ⟨mLast, Or.inr rfl, hdL⟩⟩⟩
            · simp [andThen_error, readHead1]
            · intro e he
              simp only [List.mem_cons, List.mem_singleton, List.not_mem_nil, or_false] at he
              rcases he with rfl | rfl
              · exact ⟨_, rfl⟩
              · exact ⟨_, rfl⟩
          · simp only [andThen_ok, messageAt_some _ _ _ h0, messageAt_some _ _ _ hL,
              andThen_emit]
            refine ⟨.ok (), readTail1 cfg m0
              ("First msg value " ++ v0 ++ ", offset" ++ toString m0.offset ++
                ", partition " ++ toString m0.partition ++ ", VU " ++ toString vu ++
                ", iter " ++ toString iter)
              ("Last msg value " ++ vL ++ ", offset" ++ toString mLast.offset ++
                ", partition " ++ toString m0.partition ++ ", VU " ++ toString vu ++
                ", iter " ++ toString iter), ?_,
              Or.inr ⟨rfl, m0, mLast, _, _, rfl, rfl, rfl⟩⟩
            simp [emit, Script.modify, readHead1, readTail1]

theorem readPhase2_error (cfg : Config2) (env : Env) (vu iter : Nat) (s : Run Vars2)
    (e : JSError) (hc : env.consume (cfg.messageAmount * cfg.batchSize) = .error e) :
    readPhase2 cfg env vu iter s =
      (.error e, { s with trace := s.trace ++
        [.newReader, .consume (cfg.messageAmount * cfg.batchSize)] }) := by
  simp [readPhase2, bind_eq, andThen_emit, hc, andThen_error]

theorem readPhase2_ok (cfg : Config2) (env : Env) (vu iter : Nat) (s : Run Vars2)
    (msgs : List Message) (hc : env.consume (cfg.messageAmount * cfg.batchSize) = .ok msgs) :
    readPhase2 cfg env vu iter s =
      (.ok (), { s with trace := s.trace ++ readTrace2 cfg vu iter msgs }) := by
  simp only [readPhase2, bind_eq, andThen_emit, hc, andThen_ok]
  cases msgs with
  | nil => simp [emit, Script.modify, Script.andThen, readTrace2]
  | cons m rest =>
    have h0 : jsIndex (m :: rest) 0 = some m := rfl
    simp [emit, Script.modify, Script.andThen, readTrace2, messageAt, bind_eq, h0, Script.ret]

/-! ## Whole iterations -/

theorem iteration1_ok (cfg : Config1) (env : Env) (vu iter w r : Nat)
    (hp : ∀ k b, env.produce k b = .ok ()) :
    iteration1 cfg env vu iter w r =
      readPhase1 cfg env vu iter
        { vars := { total_written := w + (if vu = 1 then cfg.messageAmount else 0),
                    total_read := r },
          trace := .newReader :: writeTrace1 cfg env vu iter } := by
  simp only [iteration1, iteration1Script, bind_eq, andThen_emit, Script.andThen,
    writePhase1_ok cfg env vu iter _ hp]
  rfl

theorem iteration1_cases (cfg : Config1) (env : Env) (vu iter w r : Nat) :
    ∃ t, OnlyProduce t ∧
      ((∃ e, (iteration1 cfg env vu iter w r).1 = .error e ∧
          (iteration1 cfg env vu iter w r).2.trace = .newReader :: t) ∨
       (∃ s1 : Run Vars1, s1.trace = .newReader :: t ∧
          iteration1 cfg env vu iter w r = readPhase1 cfg env vu iter s1)) := by
  simp only [iteration1, iteration1Script, bind_eq, andThen_emit]
  simp only [Script.andThen]
  rcases writePhase1_trace cfg env vu iter
    { vars := { total_written := w, total_read := r }, trace := [] ++ [.newReader] }
    with ⟨t, ht, hpt⟩
  rcases hw : writePhase1 cfg env vu iter
    { vars := { total_written := w, total_read := r }, trace := [] ++ [.newReader] }
    with ⟨res, s1⟩
  rw [hw] at ht
  simp only [List.nil_append, List.singleton_append] at ht
  cases res with
  | error e => exact ⟨t, hpt, Or.inl ⟨e, rfl, ht⟩⟩
  | ok u => exact ⟨t, hpt, Or.inr ⟨s1, ht, rfl⟩⟩

theorem iteration2_ok (cfg : Config2) (env : Env) (vu iter : Nat)
    (hp : ∀ k b, env.produce k b = .ok ()) :
    iteration2 cfg env vu iter =
      readPhase2 cfg env vu iter
        { vars :=
            { firstMessageContent :=
                if cfg.messageAmount = 0 then none else some (tag 0 vu iter),
              lastMessageContent :=
                if cfg.messageAmount = 0 then none
                else some (tag (cfg.messageAmount - 1) vu iter) },
          trace := writeTrace2 cfg env vu iter } := by
  simp only [iteration2, iteration2Script, bind_eq, Script.andThen,
    writePhase2_ok cfg env vu iter hp]

theorem iteration2_cases (cfg : Config2) (env : Env) (vu iter : Nat) :
    ∃ t l0, OnlyProduce t ∧
      ((∃ e, (iteration2 cfg env vu iter).1 = .error e ∧
          (iteration2 cfg env vu iter).2.trace = .newWriter :: .log l0 :: t) ∨
       (∃ (s1 : Run Vars2) (l1 l2 : String),
          s1.trace = .newWriter :: .log l0 :: t ++ [.closeWriter, .log l1, .log l2] ∧
          iteration2 cfg env vu iter = readPhase2 cfg env vu iter s1)) := by
  simp only [iteration2, iteration2Script, bind_eq, Script.andThen]
  rcases writePhase2_cases cfg env vu iter
    { vars := { firstMessageContent := none, lastMessageContent := none }, trace := [] }
    with ⟨t, l0, hpt, h⟩
  rcases hw : writePhase2 cfg env vu iter
    { vars := { firstMessageContent := none, lastMessageContent := none }, trace := [] }
    with ⟨res, s1⟩
  rw [hw] at h
  simp only [List.nil_append] at h
  rcases h with ⟨e, he, ht⟩ | ⟨hok, l1, l2, ht⟩
  · have he1 : res = .error e := he
    subst he1
    exact ⟨t, l0, hpt, Or.inl ⟨e, rfl, ht⟩⟩
  · have hok1 : res = .ok () := hok
    subst hok1
    exact ⟨t, l0, hpt, Or.inr ⟨s1, l1, l2, ht, rfl⟩⟩

/-! ## Observations on the read phase of `test-scenario.js` -/

theorem consumeLimits_append (t u : List Event) :
    consumeLimits (t ++ u) = consumeLimits t ++ consumeLimits u := by
  simp [consumeLimits, List.filterMap_append]

theorem topicChecks_append (t u : List Event) :
    topicChecks (t ++ u) = topicChecks t ++ topicChecks u := by
  simp [topicChecks, List.filterMap_append]

theorem produceCalls_append (t u : List Event) :
    produceCalls (t ++ u) = produceCalls t ++ produceCalls u := by
  simp [produceCalls, List.filterMap_append]

theorem indexReads_append (t u : List Event) :
    indexReads (t ++ u) = indexReads t ++ indexReads u := by
  simp [indexReads, List.filterMap_append]

theorem OnlyIndex.no_consume {t : List Event} (ht : OnlyIndex t) :
    consumeLimits t = [] := by
  unfold KafkaScenario.consumeLimits
  rw [List.filterMap_eq_nil_iff]
  intro e he
  rcases ht e he with ⟨i, rfl⟩
  rfl

theorem OnlyIndex.no_topicCheck {t : List Event} (ht : OnlyIndex t) :
    topicChecks t = [] := by
  unfold KafkaScenario.topicChecks
  rw [List.filterMap_eq_nil_iff]
  intro e he
  rcases ht e he with ⟨i, rfl⟩
  rfl

theorem OnlyIndex.no_produce {t : List Event} (ht : OnlyIndex t) :
    produceCalls t = [] := by
  unfold KafkaScenario.produceCalls
  rw [List.filterMap_eq_nil_iff]
  intro e he
  rcases ht e he with ⟨i, rfl⟩
  rfl

theorem OnlyIndex.count_zero {t : List Event} (ht : OnlyIndex t) (e : Event)
    (he : ∀ i, e ≠ Event.index i) : t.count e = 0 := by
  apply List.count_eq_zero_of_not_mem
  intro hmem
  rcases ht e hmem with ⟨i, hi⟩
  exact he i hi

theorem readPhase1_consumeLimits (cfg : Config1) (env : Env) (vu iter : Nat) (s : Run Vars1) :
    consumeLimits (readPhase1 cfg env vu iter s).2.trace =
      consumeLimits s.trace ++ [consumerMsgAmount cfg] := by
  rcases readPhase1_cases cfg env vu iter s with ⟨e, _, h⟩ | ⟨msgs, _, r, t, h, hcase⟩
  · rw [h]
    simp [consumeLimits_append, consumeLimits]
  · rw [h]
    have ht : consumeLimits t = [] := by
      rcases hcase with ⟨e, _, hidx, _⟩ | ⟨_, m0, mLast, l1, l2, _, _, rfl⟩
      · exact hidx.no_consume
      · simp [consumeLimits, readTail1]
    simp only [consumeLimits_append, ht, List.append_nil]
    simp [consumeLimits, readHead1]

theorem iteration1_consumeLimits (cfg : Config1) (env : Env) (vu iter w r : Nat)
    (hp : ∀ k b, env.produce k b = .ok ()) :
    consumeLimits (iteration1 cfg env vu iter w r).2.trace = [cfg.messageAmount / cfg.vus_amount] := by
  rw [iteration1_ok cfg env vu iter w r hp, readPhase1_consumeLimits]
  have h : consumeLimits (Event.newReader :: writeTrace1 cfg env vu iter) = [] := by
    have := (writeTrace1_onlyProduce cfg env vu iter).consumeLimits_nil
    simpa [consumeLimits] using this
  simp only [h, List.nil_append, consumerMsgAmount]

theorem jsIndex_nil (i : Int) : jsIndex [] i = none := by
  unfold jsIndex
  split_ifs <;> rfl

theorem jsIndex_some_lt (msgs : List Message) (i : Int) (m : Message)
    (h : jsIndex msgs i = some m) : 0 ≤ i ∧ i.toNat < msgs.length := by
  unfold jsIndex at h
  split_ifs at h with hneg
  refine ⟨by omega, ?_⟩
  rw [List.get?_eq_some] at h
  exact h.1

theorem topicChecks_writeLead1 (cfg : Config1) (env : Env) (vu iter : Nat) :
    topicChecks (Event.newReader :: writeTrace1 cfg env vu iter) = [] := by
  have := (writeTrace1_onlyProduce cfg env vu iter).topicChecks_nil
  simpa [topicChecks] using this

theorem count_closeReader_writeLead1 (cfg : Config1) (env : Env) (vu iter : Nat) :
    (Event.newReader :: writeTrace1 cfg env vu iter).count .closeReader = 0 := by
  have := (writeTrace1_onlyProduce cfg env vu iter).count_eq_zero .closeReader
    (fun _ h => by cases h) (fun _ h => by cases h)
  rw [List.count_cons, this]
  rfl

theorem topicChecks_readHead1 (cfg : Config1) (vu iter : Nat) (msgs : List Message) :
    topicChecks (readHead1 cfg vu iter msgs) = [] := by
  simp [topicChecks, readHead1]

theorem count_closeReader_readHead1 (cfg : Config1) (vu iter : Nat) (msgs : List Message) :
    (readHead1 cfg vu iter msgs).count .closeReader = 0 := by
  simp [readHead1]

theorem topicChecks_cons_skip (e : Event) (t : List Event)
    (h : ∀ p, e ≠ Event.check "Topic equals to" p) : topicChecks (e :: t) = topicChecks t := by
  cases e with
  | check name passed =>
    by_cases hn : name = "Topic equals to"
    · exact absurd (by rw [hn]) (h passed)
    · simp [topicChecks, hn]
  | _ => rfl

theorem topicChecks_readTail1 (cfg : Config1) (m0 : Message) (l1 l2 : String) :
    topicChecks (readTail1 cfg m0 l1 l2) = [decide (m0.topic = topicName1)] := by
  simp [topicChecks, readTail1]

theorem topicChecks_readTrace2 (cfg : Config2) (vu iter : Nat) (m : Message)
    (rest : List Message) :
    topicChecks (readTrace2 cfg vu iter (m :: rest)) = [decide (m.topic = topicName2)] := by
  simp [topicChecks, readTrace2]

theorem topicChecks_readTrace2_nil (cfg : Config2) (vu iter : Nat) :
    topicChecks (readTrace2 cfg vu iter []) = [] := by
  simp [topicChecks, readTrace2]

theorem topicChecks_writeTrace2 (cfg : Config2) (env : Env) (vu iter : Nat) :
    topicChecks (writeTrace2 cfg env vu iter) = [] := by
  unfold KafkaScenario.topicChecks
  rw [List.filterMap_eq_nil_iff]
  intro e he
  simp only [writeTrace2, List.mem_append, List.mem_cons, List.mem_map, List.mem_singleton,
    List.not_mem_nil, or_false] at he
  rcases he with ((rfl | rfl) | ⟨k, _, rfl⟩) | rfl | rfl | rfl <;> rfl

theorem OnlyProduce.topicChecks_cons_nil {t : List Event} (ht : OnlyProduce t) (e : Event)
    (h : ∀ p, e ≠ Event.check "Topic equals to" p) : topicChecks (e :: t) = [] := by
  rw [topicChecks_cons_skip e t h, ht.topicChecks_nil]

theorem raised_error {σ α : Type} (x : Except JSError α × σ) (e : JSError)
    (h : x.1 = .error e) : raised x = some e := by
  unfold raised
  rw [h]

theorem iteration1_topicChecks (cfg : Config1) (env : Env) (vu iter w r : Nat)
    (m : Message) (rest : List Message)
    (hc : env.consume (consumerMsgAmount cfg) = .ok (m :: rest)) :
    (∀ p ∈ topicChecks (iteration1 cfg env vu iter w r).2.trace,
        p = decide (m.topic = topicName1)) ∧
    (raised (iteration1 cfg env vu iter w r) = none →
        topicChecks (iteration1 cfg env vu iter w r).2.trace =
          [decide (m.topic = topicName1)]) := by
  rcases iteration1_cases cfg env vu iter w r with ⟨t, hpt, ⟨e, he, htr⟩ | ⟨s1, hs1, hit⟩⟩
  · have hnil : topicChecks (iteration1 cfg env vu iter w r).2.trace = [] := by
      rw [htr]
      exact hpt.topicChecks_cons_nil _ (fun _ h => by cases h)
    rw [hnil, raised_error _ e he]
    exact ⟨fun p hp => (nomatch hp), fun h => (nomatch h)⟩
  · have hpre : topicChecks s1.trace = [] := by
      rw [hs1]
      exact hpt.topicChecks_cons_nil _ (fun _ h => by cases h)
    rw [hit]
    rcases readPhase1_cases cfg env vu iter s1 with
      ⟨e, hce, _⟩ | ⟨msgs1, hc1, res, t1, h, hcase⟩
    · rw [hc] at hce
      cases hce
    · rw [hc] at hc1
      cases hc1
      rw [h]
      rcases hcase with ⟨e, rfl, hidx, _⟩ | ⟨rfl, m0, mLast, l1, l2, h0, _, rfl⟩
      · have hnil : topicChecks (s1.trace ++ (readHead1 cfg vu iter (m :: rest) ++ t1)) = [] := by
          simp only [topicChecks_append, hpre, topicChecks_readHead1, hidx.no_topicCheck,
            List.append_nil]
        simp only [hnil, raised]
        exact ⟨fun p hp => (nomatch hp), fun h => (nomatch h)⟩
      · have hm : m0 = m := by
          have : jsIndex (m :: rest) 0 = some m := rfl
          rw [this] at h0
          exact (Option.some.inj h0).symm
        subst hm
        have hone : topicChecks (s1.trace ++ (readHead1 cfg vu iter (m0 :: rest) ++
            readTail1 cfg m0 l1 l2)) = [decide (m0.topic = topicName1)] := by
          simp only [topicChecks_append, hpre, topicChecks_readHead1, topicChecks_readTail1,
            List.nil_append]
        simp only [hone]
        exact ⟨fun p hp => List.mem_singleton.mp hp, fun _ => trivial⟩

theorem iteration2_topicChecks (cfg : Config2) (env : Env) (vu iter : Nat)
    (m : Message) (rest : List Message)
    (hc : env.consume (cfg.messageAmount * cfg.batchSize) = .ok (m :: rest)) :
    (∀ p ∈ topicChecks (iteration2 cfg env vu iter).2.trace,
        p = decide (m.topic = topicName2)) ∧
    (raised (iteration2 cfg env vu iter) = none →
        topicChecks (iteration2 cfg env vu iter).2.trace =
          [decide (m.topic = topicName2)]) := by
  rcases iteration2_cases cfg env vu iter with
    ⟨t, l0, hpt, ⟨e, he, htr⟩ | ⟨s1, l1, l2, hs1, hit⟩⟩
  · have hnil : topicChecks (iteration2 cfg env vu iter).2.trace = [] := by
      rw [htr, topicChecks_cons_skip .newWriter _ (fun _ h => nomatch h)]
      exact hpt.topicChecks_cons_nil _ (fun _ h => nomatch h)
    rw [hnil, raised_error _ e he]
    exact ⟨fun p hp => (nomatch hp), fun h => (nomatch h)⟩
  · have hpre : topicChecks s1.trace = [] := by
      rw [hs1, topicChecks_append, topicChecks_cons_skip .newWriter _ (fun _ h => nomatch h),
        topicChecks_cons_skip (.log l0) _ (fun _ h => nomatch h), hpt.topicChecks_nil]
      rfl
    rw [hit, readPhase2_ok cfg env vu iter s1 _ hc]
    have hone : topicChecks (s1.trace ++ readTrace2 cfg vu iter (m :: rest)) =
        [decide (m.topic = topicName2)] := by
      simp only [topicChecks_append, hpre, topicChecks_readTrace2, List.nil_append]
    simp only [hone]
    exact ⟨fun p hp => List.mem_singleton.mp hp, fun _ => trivial⟩

theorem readPhase1_produceCalls (cfg : Config1) (env : Env) (vu iter : Nat) (s : Run Vars1) :
    produceCalls (readPhase1 cfg env vu iter s).2.trace = produceCalls s.trace := by
  rcases readPhase1_cases cfg env vu iter s with ⟨e, _, h⟩ | ⟨msgs, _, r, t, h, hcase⟩
  · rw [h]
    simp [produceCalls_append, produceCalls]
  · rw [h]
    have ht : produceCalls t = [] := by
      rcases hcase with ⟨e, _, hidx, _⟩ | ⟨_, m0, mLast, l1, l2, _, _, rfl⟩
      · exact hidx.no_produce
      · simp [produceCalls, readTail1]
    have hh : produceCalls (readHead1 cfg vu iter msgs) = [] := by
      simp [produceCalls, readHead1]
    simp only [produceCalls_append, ht, hh, List.append_nil]

theorem readPhase1_vars (cfg : Config1) (env : Env) (vu iter : Nat) (s : Run Vars1)
    (msgs : List Message) (hc : env.consume (consumerMsgAmount cfg) = .ok msgs) :
    (readPhase1 cfg env vu iter s).2.vars =
      { s.vars with total_read := s.vars.total_read + msgs.length } := by
  rcases readPhase1_cases cfg env vu iter s with ⟨e, hce, _⟩ | ⟨msgs1, hc1, r, t, h, _⟩
  · rw [hc] at hce
    cases hce
  · rw [hc] at hc1
    cases hc1
    rw [h]

theorem iteration1_produceCalls (cfg : Config1) (env : Env) (vu iter w r : Nat)
    (hp : ∀ k b, env.produce k b = .ok ()) :
    produceCalls (iteration1 cfg env vu iter w r).2.trace =
      if vu = 1 then (List.range cfg.messageAmount).map (fun k => [env.serialize (tag k vu iter)])
      else [] := by
  rw [iteration1_ok cfg env vu iter w r hp, readPhase1_produceCalls,
    ← produceCalls_writeTrace1]
  rfl

theorem produceCalls_writeTrace2 (cfg : Config2) (env : Env) (vu iter : Nat) :
    produceCalls (writeTrace2 cfg env vu iter) =
      (List.range cfg.messageAmount).map
        (fun k => List.replicate cfg.batchSize (env.serialize (tag k vu iter))) := by
  simp only [writeTrace2, produceCalls_append]
  have h1 : produceCalls [Event.newWriter,
      Event.log ("VU 1, writing messages. Iter " ++ toString iter)] = [] := rfl
  have h2 : ∀ a b, produceCalls [Event.closeWriter, Event.log a, Event.log b] = [] :=
    fun _ _ => rfl
  rw [h1, h2, List.nil_append, List.append_nil]
  simp only [produceCalls, List.filterMap_map]
  exact filterMap_total _ _ (fun _ => rfl) _

theorem consumeLimits_writeTrace2 (cfg : Config2) (env : Env) (vu iter : Nat) :
    consumeLimits (writeTrace2 cfg env vu iter) = [] := by
  unfold KafkaScenario.consumeLimits
  rw [List.filterMap_eq_nil_iff]
  intro e he
  simp only [writeTrace2, List.mem_append, List.mem_cons, List.mem_map, List.mem_singleton,
    List.not_mem_nil, or_false] at he
  rcases he with ((rfl | rfl) | ⟨k, _, rfl⟩) | rfl | rfl | rfl <;> rfl

/-- The trace of an iteration of `test-scenario-2.js` whose `produce` calls do not raise:
the write phase, then either the two events up to a raising `consume`, or the whole read
phase. -/
theorem iteration2_trace (cfg : Config2) (env : Env) (vu iter : Nat)
    (hp : ∀ k b, env.produce k b = .ok ()) :
    (∃ e, env.consume (cfg.messageAmount * cfg.batchSize) = .error e ∧
      raised (iteration2 cfg env vu iter) = some e ∧
      (iteration2 cfg env vu iter).2.trace = writeTrace2 cfg env vu iter ++
        [.newReader, .consume (cfg.messageAmount * cfg.batchSize)]) ∨
    (∃ msgs, env.consume (cfg.messageAmount * cfg.batchSize) = .ok msgs ∧
      raised (iteration2 cfg env vu iter) = none ∧
      (iteration2 cfg env vu iter).2.trace =
        writeTrace2 cfg env vu iter ++ readTrace2 cfg vu iter msgs) := by
  rw [iteration2_ok cfg env vu iter hp]
  rcases hc : env.consume (cfg.messageAmount * cfg.batchSize) with e | msgs
  · left
    rw [readPhase2_error cfg env vu iter _ e hc]
    exact ⟨e, rfl, rfl, rfl⟩
  · right
    rw [readPhase2_ok cfg env vu iter _ msgs hc]
    exact ⟨msgs, rfl, rfl, rfl⟩

theorem iteration2_produceCalls (cfg : Config2) (env : Env) (vu iter : Nat)
    (hp : ∀ k b, env.produce k b = .ok ()) :
    produceCalls (iteration2 cfg env vu iter).2.trace =
      (List.range cfg.messageAmount).map
        (fun k => List.replicate cfg.batchSize (env.serialize (tag k vu iter))) := by
  rcases iteration2_trace cfg env vu iter hp with ⟨e, _, _, h⟩ | ⟨msgs, _, _, h⟩
  · rw [h, produceCalls_append, produceCalls_writeTrace2]
    simp [produceCalls]
  · rw [h, produceCalls_append, produceCalls_writeTrace2]
    cases msgs <;> simp [produceCalls, readTrace2]

theorem iteration2_consumeLimits (cfg : Config2) (env : Env) (vu iter : Nat)
    (hp : ∀ k b, env.produce k b = .ok ()) :
    consumeLimits (iteration2 cfg env vu iter).2.trace = [cfg.messageAmount * cfg.batchSize] := by
  rcases iteration2_trace cfg env vu iter hp with ⟨e, _, _, h⟩ | ⟨msgs, _, _, h⟩
  · rw [h, consumeLimits_append, consumeLimits_writeTrace2]
    simp [consumeLimits]
  · rw [h, consumeLimits_append, consumeLimits_writeTrace2]
    cases msgs <;> simp [consumeLimits, readTrace2]

theorem serialize_tag_ne (env : Env) (hinj : Function.Injective env.serialize)
    (i v t i' v' t' : Nat) (h : (i, v, t) ≠ (i', v', t')) :
    env.serialize (tag i v t) ≠ env.serialize (tag i' v' t') := by
  intro heq
  rcases tag_injective i v t i' v' t' (hinj heq) with ⟨rfl, rfl, rfl⟩
  exact h rfl

theorem replyEnv_serialize_injective (reply : Except JSError (List Message)) :
    Function.Injective (replyEnv reply).serialize := by
  intro a b h
  have hc : Function.Injective Char.toNat := by
    intro c d hcd
    apply Char.ext
    apply UInt32.ext
    exact hcd
  exact String.ext (List.map_injective_iff.mpr hc h)

theorem OnlyProduce.counts {t : List Event} (ht : OnlyProduce t) :
    t.count .closeReader = 0 ∧ t.count .newReader = 0 ∧
    t.count .closeWriter = 0 ∧ t.count .newWriter = 0 :=
  ⟨ht.count_eq_zero _ (fun _ h => nomatch h) (fun _ h => nomatch h),
   ht.count_eq_zero _ (fun _ h => nomatch h) (fun _ h => nomatch h),
   ht.count_eq_zero _ (fun _ h => nomatch h) (fun _ h => nomatch h),
   ht.count_eq_zero _ (fun _ h => nomatch h) (fun _ h => nomatch h)⟩

theorem counts_readHead1 (cfg : Config1) (vu iter : Nat) (msgs : List Message) :
    (readHead1 cfg vu iter msgs).count .closeReader = 0 ∧
    (readHead1 cfg vu iter msgs).count .newReader = 0 ∧
    (readHead1 cfg vu iter msgs).count .closeWriter = 0 ∧
    (readHead1 cfg vu iter msgs).count .newWriter = 0 := by
  simp [readHead1]

theorem counts_readTail1 (cfg : Config1) (m0 : Message) (l1 l2 : String) :
    (readTail1 cfg m0 l1 l2).count .closeReader = 1 ∧
    (readTail1 cfg m0 l1 l2).count .newReader = 0 ∧
    (readTail1 cfg m0 l1 l2).count .closeWriter = 0 ∧
    (readTail1 cfg m0 l1 l2).count .newWriter = 0 := by
  simp [readTail1]

theorem counts_readTrace2 (cfg : Config2) (vu iter : Nat) (msgs : List Message) :
    (readTrace2 cfg vu iter msgs).count .closeReader = 1 ∧
    (readTrace2 cfg vu iter msgs).count .newReader = 1 ∧
    (readTrace2 cfg vu iter msgs).count .closeWriter = 0 ∧
    (readTrace2 cfg vu iter msgs).count .newWriter = 0 := by
  cases msgs <;> simp [readTrace2]

theorem iteration1_completed (cfg : Config1) (env : Env) (vu iter w r : Nat)
    (h : raised (iteration1 cfg env vu iter w r) = none) :
    allClosed (iteration1 cfg env vu iter w r).2.trace ∧
    (iteration1 cfg env vu iter w r).2.trace.count .newReader = 1 := by
  rcases iteration1_cases cfg env vu iter w r with ⟨t, hpt, ⟨e, he, _⟩ | ⟨s1, hs1, hit⟩⟩
  · rw [raised_error _ e he] at h
    cases h
  · rw [hit] at h ⊢
    rcases readPhase1_cases cfg env vu iter s1 with
      ⟨e, _, hr⟩ | ⟨msgs, _, res, t1, hr, hcase⟩
    · rw [hr] at h
      cases h
    · rw [hr] at h ⊢
      rcases hcase with ⟨e, rfl, _, _⟩ | ⟨rfl, m0, mLast, l1, l2, _, _, rfl⟩
      · cases h
      · rcases hpt.counts with ⟨c1, c2, c3, c4⟩
        rcases counts_readHead1 cfg vu iter msgs with ⟨d1, d2, d3, d4⟩
        rcases counts_readTail1 cfg m0 l1 l2 with ⟨e1, e2, e3, e4⟩
        simp only [allClosed, hs1, List.count_append, List.count_cons, c1, c2, c3, c4,
          d1, d2, d3, d4, e1, e2, e3, e4]
        decide

theorem iteration2_completed (cfg : Config2) (env : Env) (vu iter : Nat)
    (h : raised (iteration2 cfg env vu iter) = none) :
    allClosed (iteration2 cfg env vu iter).2.trace ∧
    (iteration2 cfg env vu iter).2.trace.count .newReader = 1 ∧
    (iteration2 cfg env vu iter).2.trace.count .newWriter = 1 := by
  rcases iteration2_cases cfg env vu iter with
    ⟨t, l0, hpt, ⟨e, he, _⟩ | ⟨s1, l1, l2, hs1, hit⟩⟩
  · rw [raised_error _ e he] at h
    cases h
  · rw [hit] at h ⊢
    rcases hc : env.consume (cfg.messageAmount * cfg.batchSize) with e | msgs
    · rw [readPhase2_error cfg env vu iter s1 e hc] at h
      cases h
    · rw [readPhase2_ok cfg env vu iter s1 msgs hc]
      rcases hpt.counts with ⟨c1, c2, c3, c4⟩
      rcases counts_readTrace2 cfg vu iter msgs with ⟨d1, d2, d3, d4⟩
      simp only [allClosed, hs1, List.count_append, List.count_cons, List.count_nil,
        c1, c2, c3, c4, d1, d2, d3, d4]
      simp

theorem indexReads_writeTrace2 (cfg : Config2) (env : Env) (vu iter : Nat) :
    indexReads (writeTrace2 cfg env vu iter) = [] := by
  unfold KafkaScenario.indexReads
  rw [List.filterMap_eq_nil_iff]
  intro e he
  simp only [writeTrace2, List.mem_append, List.mem_cons, List.mem_map, List.mem_singleton,
    List.not_mem_nil, or_false] at he
  rcases he with ((rfl | rfl) | ⟨k, _, rfl⟩) | rfl | rfl | rfl <;> rfl

theorem count_closeReader_writeTrace2 (cfg : Config2) (env : Env) (vu iter : Nat) :
    (writeTrace2 cfg env vu iter).count .closeReader = 0 := by
  apply List.count_eq_zero_of_not_mem
  intro he
  simp only [writeTrace2, List.mem_append, List.mem_cons, List.mem_map, List.mem_singleton,
    List.not_mem_nil, or_false] at he
  rcases he with ((h | h) | ⟨k, _, h⟩) | h | h | h <;> cases h

theorem iteration2_vars (cfg : Config2) (env : Env) (vu iter : Nat)
    (hp : ∀ k b, env.produce k b = .ok ()) :
    (iteration2 cfg env vu iter).2.vars =
      { firstMessageContent := if cfg.messageAmount = 0 then none else some (tag 0 vu iter),
        lastMessageContent :=
          if cfg.messageAmount = 0 then none
          else some (tag (cfg.messageAmount - 1) vu iter) } := by
  rw [iteration2_ok cfg env vu iter hp]
  rcases hc : env.consume (cfg.messageAmount * cfg.batchSize) with e | msgs
  · rw [readPhase2_error cfg env vu iter _ e hc]
  · rw [readPhase2_ok cfg env vu iter _ msgs hc]

/-! ## Claims -/

/-- C1 (as stated, it fails): with the constants of `test-scenario.js`
(`messageAmount = 1000`, `vus_amount = 3`) the three workers pass the limits 333, 333, 333 to
`consumer.consume`, not 334, 333, 333, and the limits add up to 999, not 1000. -/
theorem consume_quota_sum_drops_remainder :
    (List.range' 1 3).map (fun vu =>
        consumeLimits (iteration1 script1Config (replyEnv (.ok [])) vu 0 0 0).2.trace) =
      [[333], [333], [333]] ∧
    ((List.range' 1 3).map (fun vu =>
        (consumeLimits (iteration1 script1Config (replyEnv (.ok [])) vu 0 0 0).2.trace).sum)).sum
      ≠ script1Config.messageAmount := by
  have h : ∀ vu, consumeLimits (iteration1 script1Config (replyEnv (.ok [])) vu 0 0 0).2.trace
      = [333] := fun vu =>
    iteration1_consumeLimits script1Config (replyEnv (.ok [])) vu 0 0 0 (fun _ _ => rfl)
  simp only [h]
  decide

/-- C1 (amended): for every total message count `N` and worker count `W ≥ 1`, every worker
whose `produce` calls do not raise passes the same limit `floor(N / W)` to
`consumer.consume`; the limits of the workers `1..W` add up to `N - N mod W`, which is `N`
exactly when `W` divides `N`. -/
theorem consume_quota_sum_floor (cfg : Config1) (env : Nat → Env) (iter w r : Nat → Nat)
    (hW : 1 ≤ cfg.vus_amount) (hp : ∀ vu k b, (env vu).produce k b = .ok ()) :
    (∀ vu, consumeLimits (iteration1 cfg (env vu) vu (iter vu) (w vu) (r vu)).2.trace =
      [cfg.messageAmount / cfg.vus_amount]) ∧
    ((List.range' 1 cfg.vus_amount).map (fun vu =>
        (consumeLimits (iteration1 cfg (env vu) vu (iter vu) (w vu) (r vu)).2.trace).sum)).sum =
      cfg.messageAmount - cfg.messageAmount % cfg.vus_amount ∧
    (((List.range' 1 cfg.vus_amount).map (fun vu =>
        (consumeLimits (iteration1 cfg (env vu) vu (iter vu) (w vu) (r vu)).2.trace).sum)).sum =
      cfg.messageAmount ↔ cfg.vus_amount ∣ cfg.messageAmount) := by
  have _hpos : 0 < cfg.vus_amount := hW
  have h : ∀ vu, consumeLimits (iteration1 cfg (env vu) vu (iter vu) (w vu) (r vu)).2.trace =
      [cfg.messageAmount / cfg.vus_amount] := fun vu =>
    iteration1_consumeLimits cfg (env vu) vu (iter vu) (w vu) (r vu) (hp vu)
  have hsum : ((List.range' 1 cfg.vus_amount).map (fun vu =>
        (consumeLimits (iteration1 cfg (env vu) vu (iter vu) (w vu) (r vu)).2.trace).sum)).sum =
      cfg.vus_amount * (cfg.messageAmount / cfg.vus_amount) := by
    simp only [h, List.sum_cons, List.sum_nil, Nat.add_zero]
    simp [List.map_const']
  have hdiv := Nat.div_add_mod cfg.messageAmount cfg.vus_amount
  refine ⟨h, ?_, ?_⟩
  · rw [hsum]; omega
  · rw [hsum]
    constructor
    · intro heq
      exact Dvd.intro _ heq
    · intro hd
      exact Nat.mul_div_cancel' hd

/-- C1 (amended), at `N = 7`, `W = 3`: worker 1 passes the limit 2 and the limits of the
three workers add up to 6. -/
theorem consume_quota_sum_floor_witness :
    consumeLimits (iteration1 ⟨7, 3⟩ (replyEnv (.ok [])) 1 0 0 0).2.trace = [7 / 3] ∧
    ((List.range' 1 3).map (fun vu =>
        (consumeLimits (iteration1 ⟨7, 3⟩ (replyEnv (.ok [])) vu 0 0 0).2.trace).sum)).sum =
      7 - 7 % 3 :=
  have h := consume_quota_sum_floor ⟨7, 3⟩ (fun _ => replyEnv (.ok [])) (fun _ => 0)
    (fun _ => 0) (fun _ => 0) (by decide) (fun _ _ _ => rfl)
  ⟨h.1 1, h.2.1⟩

/-- C2 (the code departs from the claim): in `test-scenario.js`, when `consumer.consume`
returns fewer messages than `consumerMsgAmount`, the iteration does not run to its end: it
raises (a `TypeError` when nothing was returned), the `"Topic equals to"` check is never
evaluated and `consumer.close()` is never called. -/
theorem short_consume_raises (cfg : Config1) (env : Env) (vu iter w r : Nat)
    (msgs : List Message) (hp : ∀ k b, env.produce k b = .ok ())
    (hc : env.consume (consumerMsgAmount cfg) = .ok msgs)
    (hshort : msgs.length < consumerMsgAmount cfg) :
    raised (iteration1 cfg env vu iter w r) ≠ none ∧
    (msgs = [] → raised (iteration1 cfg env vu iter w r) = some .typeError) ∧
    topicChecks (iteration1 cfg env vu iter w r).2.trace = [] ∧
    (iteration1 cfg env vu iter w r).2.trace.count .closeReader = 0 := by
  rw [iteration1_ok cfg env vu iter w r hp]
  rcases readPhase1_cases cfg env vu iter
      { vars := { total_written := w + (if vu = 1 then cfg.messageAmount else 0),
                  total_read := r },
        trace := .newReader :: writeTrace1 cfg env vu iter }
    with ⟨e, hce, _⟩ | ⟨msgs1, hc1, res, t, h, hcase⟩
  · rw [hc] at hce
    cases hce
  · rw [hc] at hc1
    cases hc1
    rcases hcase with ⟨e, rfl, hidx, hwhy⟩ | ⟨_, m0, mLast, l1, l2, _, hL, _⟩
    · rw [h]
      refine ⟨by simp [raised], ?_, ?_, ?_⟩
      · intro hnil
        subst hnil
        rcases hwhy with ⟨rfl, _⟩ | ⟨m, hm, _⟩
        · rfl
        · simp [jsIndex_nil] at hm
      · simp only [topicChecks_append, topicChecks_writeLead1, topicChecks_readHead1,
          hidx.no_topicCheck, List.append_nil]
      · simp only [List.count_append, count_closeReader_writeLead1, count_closeReader_readHead1,
          hidx.count_zero .closeReader (fun _ hh => by cases hh)]
    · have := (jsIndex_some_lt _ _ _ hL).2
      omega

/-- C2, at the failing input: virtual user 2 of `test-scenario.js` gets an empty result from
`consumer.consume` (limit 333) and the iteration ends with a `TypeError`, the topic check not
evaluated and the Reader not closed. -/
theorem short_consume_raises_witness :
    raised (iteration1 script1Config (replyEnv (.ok [])) 2 0 0 0) = some .typeError ∧
    topicChecks (iteration1 script1Config (replyEnv (.ok [])) 2 0 0 0).2.trace = [] ∧
    (iteration1 script1Config (replyEnv (.ok [])) 2 0 0 0).2.trace.count .closeReader = 0 :=
  have h := short_consume_raises script1Config (replyEnv (.ok [])) 2 0 0 0 [] (fun _ _ => rfl)
    rfl (by decide)
  ⟨h.2.1 rfl, h.2.2.1, h.2.2.2⟩

/-- C3 (as stated, it fails): in both scenarios the `"Topic equals to"` check passes on a
consumed sequence whose first message is on the topic and whose later message is not. -/
theorem topic_check_ignores_later_messages :
    (topicChecks (iteration2 script2Config
        (replyEnv (.ok [⟨[], "topic1", 0, 0⟩, ⟨[], "other-topic", 0, 1⟩])) 1 0).2.trace = [true] ∧
      ¬ ∀ m ∈ [(⟨[], "topic1", 0, 0⟩ : Message), ⟨[], "other-topic", 0, 1⟩],
          m.topic = topicName2) ∧
    (topicChecks (iteration1 script1Config
        (replyEnv (.ok (⟨[], "my-topic", 0, 0⟩ ::
          List.replicate 332 ⟨[], "other-topic", 0, 1⟩))) 2 0 0 0).2.trace = [true] ∧
      ¬ ∀ m ∈ (⟨[], "my-topic", 0, 0⟩ : Message) ::
          List.replicate 332 ⟨[], "other-topic", 0, 1⟩, m.topic = topicName1) := by
  refine ⟨⟨?_, ?_⟩, ?_, ?_⟩
  · rw [iteration2_ok _ _ _ _ (fun _ _ => rfl), readPhase2_ok _ _ _ _ _ _ rfl]
    simp only [topicChecks_append, topicChecks_writeTrace2, topicChecks_readTrace2]
    decide
  · intro h
    exact absurd (h ⟨[], "other-topic", 0, 1⟩ (by simp)) (by decide)
  · decide
  · intro h
    exact absurd (h ⟨[], "other-topic", 0, 1⟩
      (List.mem_cons_of_mem _ (List.mem_replicate.mpr ⟨by decide, rfl⟩))) (by decide)

/-- C3 (amended): in both scenarios, when `consumer.consume` returns a non-empty sequence,
every evaluation of the `"Topic equals to"` check passes if and only if the topic field of
the FIRST message of the sequence equals `topicName`; the check is evaluated exactly once
when the iteration runs to its end. -/
theorem topic_check_first_message (cfg1 : Config1) (cfg2 : Config2) (env : Env)
    (vu iter w r : Nat) (m : Message) (rest : List Message) :
    (env.consume (consumerMsgAmount cfg1) = .ok (m :: rest) →
      (∀ p ∈ topicChecks (iteration1 cfg1 env vu iter w r).2.trace,
          (p = true ↔ m.topic = topicName1)) ∧
      (raised (iteration1 cfg1 env vu iter w r) = none →
          topicChecks (iteration1 cfg1 env vu iter w r).2.trace =
            [decide (m.topic = topicName1)])) ∧
    (env.consume (cfg2.messageAmount * cfg2.batchSize) = .ok (m :: rest) →
      (∀ p ∈ topicChecks (iteration2 cfg2 env vu iter).2.trace,
          (p = true ↔ m.topic = topicName2)) ∧
      (raised (iteration2 cfg2 env vu iter) = none →
          topicChecks (iteration2 cfg2 env vu iter).2.trace =
            [decide (m.topic = topicName2)])) := by
  constructor
  · intro hc
    have h := iteration1_topicChecks cfg1 env vu iter w r m rest hc
    exact ⟨fun p hp => by rw [h.1 p hp]; simp, h.2⟩
  · intro hc
    have h := iteration2_topicChecks cfg2 env vu iter m rest hc
    exact ⟨fun p hp => by rw [h.1 p hp]; simp, h.2⟩

/-- C3 (amended), on a two-message sequence whose second message is on another topic: both
scenarios run to their end and evaluate the check once, with the outcome of the first
message. -/
theorem topic_check_first_message_witness :
    topicChecks (iteration1 ⟨2, 1⟩
        (replyEnv (.ok [⟨[], "my-topic", 0, 0⟩, ⟨[], "other-topic", 0, 1⟩])) 2 0 0 0).2.trace =
      [decide ("my-topic" = topicName1)] ∧
    topicChecks (iteration2 ⟨1, 2⟩
        (replyEnv (.ok [⟨[], "my-topic", 0, 0⟩, ⟨[], "other-topic", 0, 1⟩])) 2 0).2.trace =
      [decide ("my-topic" = topicName2)] :=
  ⟨((topic_check_first_message ⟨2, 1⟩ ⟨1, 2⟩
      (replyEnv (.ok [⟨[], "my-topic", 0, 0⟩, ⟨[], "other-topic", 0, 1⟩])) 2 0 0 0
      ⟨[], "my-topic", 0, 0⟩ [⟨[], "other-topic", 0, 1⟩]).1 rfl).2 (by decide),
   ((topic_check_first_message ⟨2, 1⟩ ⟨1, 2⟩
      (replyEnv (.ok [⟨[], "my-topic", 0, 0⟩, ⟨[], "other-topic", 0, 1⟩])) 2 0 0 0
      ⟨[], "my-topic", 0, 0⟩ [⟨[], "other-topic", 0, 1⟩]).2 rfl).2 (by decide)⟩

/-- C4: the tag function is injective over the natural numbers; with an injective
serializer, messages written for different (index, VU, iteration) triples carry different
values; and one iteration of virtual user 1 of `test-scenario.js` whose `produce` calls do not
raise hands over the values of the indices `0, 1, ..., messageAmount - 1` in ascending
order, one message per call. -/
theorem tags_do_not_collide (cfg : Config1) (env : Env) (iter w r : Nat)
    (hinj : Function.Injective env.serialize) (hp : ∀ k b, env.produce k b = .ok ()) :
    (∀ i v t i' v' t', tag i v t = tag i' v' t' → i = i' ∧ v = v' ∧ t = t') ∧
    (∀ i v t i' v' t', (i, v, t) ≠ (i', v', t') →
      env.serialize (tag i v t) ≠ env.serialize (tag i' v' t')) ∧
    produceCalls (iteration1 cfg env 1 iter w r).2.trace =
      (List.range cfg.messageAmount).map (fun index => [env.serialize (tag index 1 iter)]) := by
  refine ⟨tag_injective, serialize_tag_ne env hinj, ?_⟩
  rw [iteration1_produceCalls cfg env 1 iter w r hp, if_pos rfl]

/-- C4, on a two-message run of virtual user 1 with the code-point serializer. -/
theorem tags_do_not_collide_witness :
    produceCalls (iteration1 ⟨2, 1⟩ (replyEnv (.ok [])) 1 0 0 0).2.trace =
      (List.range 2).map (fun index => [(replyEnv (.ok [])).serialize (tag index 1 0)]) :=
  (tags_do_not_collide ⟨2, 1⟩ (replyEnv (.ok [])) 0 0 0
    (replyEnv_serialize_injective _) (fun _ _ => rfl)).2.2

/-- C5 (as stated, it fails): with the constants of `test-scenario-2.js`
(`messageAmount = 9`, `batchSize = 10`) the values handed to `producer.produce` during one
iteration are not pairwise distinct. -/
theorem batch_values_repeat :
    ¬ (produceCalls (iteration2 script2Config (replyEnv (.ok [])) 1 0).2.trace).flatten.Nodup := by
  rw [iteration2_produceCalls script2Config (replyEnv (.ok [])) 1 0 (fun _ _ => rfl)]
  intro h
  have h0 := (List.nodup_flatten.mp h).1
    (List.replicate 10 ((replyEnv (.ok [])).serialize (tag 0 1 0)))
    (List.mem_map.mpr ⟨0, by decide, rfl⟩)
  rw [List.nodup_replicate] at h0
  omega

/-- C5 (amended): in `test-scenario-2.js`, for `messageAmount ≥ 1` and `batchSize ≥ 1`, with
an injective serializer and `produce` calls that do not raise, the batch of index `k`
consists of `batchSize` messages that all carry the one value derived from `k`; the values
of different batches are different; so all the values of the iteration are pairwise
distinct exactly when `batchSize = 1`. -/
theorem batch_values_distinct_across_batches (cfg : Config2) (env : Env) (vu iter : Nat)
    (hM : 1 ≤ cfg.messageAmount) (hB : 1 ≤ cfg.batchSize)
    (hinj : Function.Injective env.serialize) (hp : ∀ k b, env.produce k b = .ok ()) :
    produceCalls (iteration2 cfg env vu iter).2.trace =
      (List.range cfg.messageAmount).map
        (fun index => List.replicate cfg.batchSize (env.serialize (tag index vu iter))) ∧
    (∀ j k, j ≠ k → env.serialize (tag j vu iter) ≠ env.serialize (tag k vu iter)) ∧
    ((produceCalls (iteration2 cfg env vu iter).2.trace).flatten.Nodup ↔ cfg.batchSize = 1) := by
  have hne : ∀ j k, j ≠ k → env.serialize (tag j vu iter) ≠ env.serialize (tag k vu iter) :=
    fun j k hjk => serialize_tag_ne env hinj j vu iter k vu iter
      (fun h => hjk (congrArg Prod.fst h))
  refine ⟨iteration2_produceCalls cfg env vu iter hp, hne, ?_⟩
  rw [iteration2_produceCalls cfg env vu iter hp]
  constructor
  · intro h
    have h0 := (List.nodup_flatten.mp h).1
      (List.replicate cfg.batchSize (env.serialize (tag 0 vu iter)))
      (List.mem_map.mpr ⟨0, List.mem_range.mpr (by omega), rfl⟩)
    rw [List.nodup_replicate] at h0
    omega
  · intro hB1
    rw [hB1]
    have hflat : ((List.range cfg.messageAmount).map
        (fun index => List.replicate 1 (env.serialize (tag index vu iter)))).flatten =
        (List.range cfg.messageAmount).map (fun index => env.serialize (tag index vu iter)) := by
      induction List.range cfg.messageAmount with
      | nil => rfl
      | cons k l ih =>
        rw [List.map_cons, List.map_cons, List.flatten_cons, ih]
        rfl
    rw [hflat]
    refine List.Nodup.map_on ?_ (List.nodup_range _)
    intro j _ k _ hjk
    by_contra hcontra
    exact hne j k hcontra hjk

/-- C5 (amended), with 2 batches of 2 under the code-point serializer. -/
theorem batch_values_distinct_across_batches_witness :
    produceCalls (iteration2 ⟨2, 2⟩ (replyEnv (.ok [])) 1 0).2.trace =
      (List.range 2).map
        (fun index => List.replicate 2 ((replyEnv (.ok [])).serialize (tag index 1 0))) ∧
    ¬ (produceCalls (iteration2 ⟨2, 2⟩ (replyEnv (.ok [])) 1 0).2.trace).flatten.Nodup :=
  have h := batch_values_distinct_across_batches ⟨2, 2⟩ (replyEnv (.ok [])) 1 0
    (by decide) (by decide) (replyEnv_serialize_injective _) (fun _ _ => rfl)
  ⟨h.1, fun hn => absurd (h.2.2.mp hn) (by decide)⟩

/-- C6 (as stated, it fails): an iteration that raises leaves open what it created.  In
`test-scenario-2.js` a raising `producer.produce` leaves the Writer open and a raising
`consumer.consume` leaves the Reader open; in `test-scenario.js` a raising
`consumer.consume` leaves the Reader open. -/
theorem resources_leak_on_raise :
    (raised (iteration2 script2Config
        { replyEnv (.ok []) with produce := fun _ _ => .error .produceError } 1 0) =
        some .produceError ∧
      ¬ allClosed (iteration2 script2Config
        { replyEnv (.ok []) with produce := fun _ _ => .error .produceError } 1 0).2.trace) ∧
    (raised (iteration2 ⟨1, 1⟩ (replyEnv (.error .consumeError)) 1 0) = some .consumeError ∧
      ¬ allClosed (iteration2 ⟨1, 1⟩ (replyEnv (.error .consumeError)) 1 0).2.trace) ∧
    (raised (iteration1 script1Config (replyEnv (.error .consumeError)) 2 0 0 0) =
        some .consumeError ∧
      ¬ allClosed (iteration1 script1Config (replyEnv (.error .consumeError)) 2 0 0 0).2.trace) := by
  refine ⟨⟨?_, ?_⟩, ⟨?_, ?_⟩, ?_, ?_⟩ <;> decide

/-- C6 (amended): in both scenarios, when the iteration runs to its end without raising,
the Reader it created (and, in `test-scenario-2.js`, the Writer it created) has been
closed: the trace holds exactly one construction of each and as many `close()` calls. -/
theorem resources_released_on_completion (cfg1 : Config1) (cfg2 : Config2) (env : Env)
    (vu iter w r : Nat) :
    (raised (iteration1 cfg1 env vu iter w r) = none →
      allClosed (iteration1 cfg1 env vu iter w r).2.trace ∧
      (iteration1 cfg1 env vu iter w r).2.trace.count .newReader = 1) ∧
    (raised (iteration2 cfg2 env vu iter) = none →
      allClosed (iteration2 cfg2 env vu iter).2.trace ∧
      (iteration2 cfg2 env vu iter).2.trace.count .newReader = 1 ∧
      (iteration2 cfg2 env vu iter).2.trace.count .newWriter = 1) :=
  ⟨iteration1_completed cfg1 env vu iter w r, iteration2_completed cfg2 env vu iter⟩

/-- C6 (amended), on runs that complete: one message on each side. -/
theorem resources_released_on_completion_witness :
    allClosed (iteration1 ⟨1, 1⟩ (replyEnv (.ok [⟨[], "my-topic", 0, 0⟩])) 1 0 0 0).2.trace ∧
    allClosed (iteration2 ⟨1, 1⟩ (replyEnv (.ok [⟨[], "my-topic", 0, 0⟩])) 1 0).2.trace :=
  ⟨((resources_released_on_completion ⟨1, 1⟩ ⟨1, 1⟩
      (replyEnv (.ok [⟨[], "my-topic", 0, 0⟩])) 1 0 0 0).1 (by decide)).1,
   ((resources_released_on_completion ⟨1, 1⟩ ⟨1, 1⟩
      (replyEnv (.ok [⟨[], "my-topic", 0, 0⟩])) 1 0 0 0).2 (by decide)).1⟩

/-- C7: in `test-scenario-2.js`, for every `messageAmount` and `batchSize`, an iteration
whose `produce` calls do not raise calls `producer.produce` exactly `messageAmount` times,
in ascending index order, each call with exactly `batchSize` messages, all of them before
the `consume` call; the messages produced number `messageAmount * batchSize`, which is the
limit passed to `consumer.consume`. -/
theorem batches_and_consume_limit (cfg : Config2) (env : Env) (vu iter : Nat)
    (hp : ∀ k b, env.produce k b = .ok ()) :
    produceCalls (iteration2 cfg env vu iter).2.trace =
      (List.range cfg.messageAmount).map
        (fun index => List.replicate cfg.batchSize (env.serialize (tag index vu iter))) ∧
    (produceCalls (iteration2 cfg env vu iter).2.trace).length = cfg.messageAmount ∧
    (∀ batch ∈ produceCalls (iteration2 cfg env vu iter).2.trace,
      batch.length = cfg.batchSize) ∧
    (produceCalls (iteration2 cfg env vu iter).2.trace).flatten.length =
      cfg.messageAmount * cfg.batchSize ∧
    consumeLimits (iteration2 cfg env vu iter).2.trace = [cfg.messageAmount * cfg.batchSize] ∧
    (∃ rest, (iteration2 cfg env vu iter).2.trace =
      writeTrace2 cfg env vu iter ++
        .newReader :: .consume (cfg.messageAmount * cfg.batchSize) :: rest) := by
  have hcalls := iteration2_produceCalls cfg env vu iter hp
  refine ⟨hcalls, ?_, ?_, ?_, iteration2_consumeLimits cfg env vu iter hp, ?_⟩
  · rw [hcalls, List.length_map, List.length_range]
  · intro batch hb
    rw [hcalls] at hb
    rcases List.mem_map.mp hb with ⟨k, _, rfl⟩
    exact List.length_replicate _ _
  · rw [hcalls, List.length_flatten, List.map_map]
    have hconst : (List.length ∘ fun index =>
        List.replicate cfg.batchSize (env.serialize (tag index vu iter))) =
        fun _ => cfg.batchSize := by
      funext k
      exact List.length_replicate _ _
    rw [hconst, List.map_const', List.sum_replicate, List.length_range]
    rfl
  · rcases iteration2_trace cfg env vu iter hp with ⟨e, _, _, h⟩ | ⟨msgs, _, _, h⟩
    · exact ⟨[], h⟩
    · exact ⟨_, by rw [h]; rfl⟩

/-- C7, with the constants of `test-scenario-2.js`: 9 batches, 90 messages, and 90 is the
limit passed to `consumer.consume`. -/
theorem batches_and_consume_limit_witness :
    (produceCalls (iteration2 script2Config (replyEnv (.ok [])) 1 0).2.trace).length = 9 ∧
    (produceCalls (iteration2 script2Config (replyEnv (.ok [])) 1 0).2.trace).flatten.length =
      90 ∧
    consumeLimits (iteration2 script2Config (replyEnv (.ok [])) 1 0).2.trace = [90] :=
  have h := batches_and_consume_limit script2Config (replyEnv (.ok [])) 1 0 (fun _ _ => rfl)
  ⟨h.2.1, h.2.2.2.1, h.2.2.2.2.1⟩

/-- C8: in `test-scenario.js`, when `produce` does not raise and `consume` returns `msgs`,
the number of messages handed to `producer.produce` during the iteration is `messageAmount`
for virtual user 1 and 0 for any other, `total_written` grows by exactly that number, and
`total_read` grows by exactly `msgs.length`. -/
theorem single_writer_counters (cfg : Config1) (env : Env) (vu iter w r : Nat)
    (msgs : List Message) (hp : ∀ k b, env.produce k b = .ok ())
    (hc : env.consume (consumerMsgAmount cfg) = .ok msgs) :
    (produceCalls (iteration1 cfg env vu iter w r).2.trace).flatten.length =
      (if vu = 1 then cfg.messageAmount else 0) ∧
    (iteration1 cfg env vu iter w r).2.vars.total_written =
      w + (produceCalls (iteration1 cfg env vu iter w r).2.trace).flatten.length ∧
    (iteration1 cfg env vu iter w r).2.vars.total_read = r + msgs.length := by
  have hlen : (produceCalls (iteration1 cfg env vu iter w r).2.trace).flatten.length =
      (if vu = 1 then cfg.messageAmount else 0) := by
    rw [iteration1_produceCalls cfg env vu iter w r hp]
    split_ifs
    · rw [List.length_flatten, List.map_map]
      have hconst : (List.length ∘ fun k => [env.serialize (tag k vu iter)]) =
          fun _ => 1 := by
        funext k
        rfl
      rw [hconst, List.map_const', List.sum_replicate, List.length_range]
      simp
    · rfl
  refine ⟨hlen, ?_, ?_⟩
  · rw [hlen, iteration1_ok cfg env vu iter w r hp, readPhase1_vars cfg env vu iter _ msgs hc]
  · rw [iteration1_ok cfg env vu iter w r hp, readPhase1_vars cfg env vu iter _ msgs hc]

/-- C8, with the constants of `test-scenario.js`: virtual user 1 hands over 1000 messages
and virtual user 2 none. -/
theorem single_writer_counters_witness :
    ((produceCalls (iteration1 script1Config (replyEnv (.ok [])) 1 0 0 0).2.trace).flatten.length
        = 1000 ∧
      (iteration1 script1Config (replyEnv (.ok [])) 1 0 0 0).2.vars.total_written = 1000) ∧
    ((produceCalls (iteration1 script1Config (replyEnv (.ok [])) 2 0 0 0).2.trace).flatten.length
        = 0 ∧
      (iteration1 script1Config (replyEnv (.ok [])) 2 0 0 0).2.vars.total_written = 0) :=
  have h1 := single_writer_counters script1Config (replyEnv (.ok [])) 1 0 0 0 []
    (fun _ _ => rfl) rfl
  have h2 := single_writer_counters script1Config (replyEnv (.ok [])) 2 0 0 0 []
    (fun _ _ => rfl) rfl
  ⟨⟨h1.1, by rw [h1.2.1, h1.1]; rfl⟩, ⟨h2.1, by rw [h2.2.1, h2.1]; rfl⟩⟩

/-- C9: in `test-scenario-2.js`, when `produce` does not raise, the produce loop runs to its
end; for `messageAmount ≥ 1` it leaves `firstMessageContent` equal to the tag of index 0 and
`lastMessageContent` equal to the tag of index `messageAmount - 1` (the same tag when
`messageAmount = 1`); for `messageAmount = 0` both stay `null`.  The iteration keeps these
values to its end. -/
theorem first_and_last_recorded (cfg : Config2) (env : Env) (vu iter : Nat)
    (hp : ∀ k b, env.produce k b = .ok ()) :
    (produceLoop2 cfg env vu iter
      { vars := { firstMessageContent := none, lastMessageContent := none }, trace := [] }).1 =
      .ok () ∧
    (1 ≤ cfg.messageAmount →
      (produceLoop2 cfg env vu iter
        { vars := { firstMessageContent := none, lastMessageContent := none },
          trace := [] }).2.vars =
        { firstMessageContent := some (tag 0 vu iter),
          lastMessageContent := some (tag (cfg.messageAmount - 1) vu iter) } ∧
      (iteration2 cfg env vu iter).2.vars =
        { firstMessageContent := some (tag 0 vu iter),
          lastMessageContent := some (tag (cfg.messageAmount - 1) vu iter) }) ∧
    (cfg.messageAmount = 1 →
      (iteration2 cfg env vu iter).2.vars.firstMessageContent =
        (iteration2 cfg env vu iter).2.vars.lastMessageContent) ∧
    (cfg.messageAmount = 0 →
      (produceLoop2 cfg env vu iter
        { vars := { firstMessageContent := none, lastMessageContent := none },
          trace := [] }).2.vars =
        { firstMessageContent := none, lastMessageContent := none } ∧
      (iteration2 cfg env vu iter).2.vars =
        { firstMessageContent := none, lastMessageContent := none }) := by
  have hloop := produceLoop2_ok cfg env vu iter
    { vars := { firstMessageContent := none, lastMessageContent := none }, trace := [] }
    hp cfg.messageAmount (le_refl _)
  have hvars := iteration2_vars cfg env vu iter hp
  unfold produceLoop2
  rw [hloop, hvars]
  refine ⟨rfl, ?_, ?_, ?_⟩
  · intro hM
    have hne : cfg.messageAmount ≠ 0 := by omega
    have hpos : 0 < cfg.messageAmount := by omega
    simp [hne, hpos]
  · intro h1
    simp [h1]
  · intro h0
    simp [h0]

/-- C9, with the constants of `test-scenario-2.js` (`messageAmount = 9`), virtual user 2,
iteration 5. -/
theorem first_and_last_recorded_witness :
    (iteration2 script2Config (replyEnv (.ok [])) 2 5).2.vars =
      { firstMessageContent := some (tag 0 2 5), lastMessageContent := some (tag 8 2 5) } :=
  ((first_and_last_recorded script2Config (replyEnv (.ok [])) 2 5 (fun _ _ => rfl)).2.1
    (by decide)).2

/-- C10: in `test-scenario-2.js`, when `produce` does not raise and `consumer.consume`
returns zero messages, the iteration evaluates no `"Topic equals to"` check, reads no
element of the sequence, runs to its end without raising and its last step is
`consumer.close()`, called once; when at least one message is returned, the check is
evaluated exactly once. -/
theorem empty_result_skips_topic_check (cfg : Config2) (env : Env) (vu iter : Nat)
    (hp : ∀ k b, env.produce k b = .ok ()) :
    (env.consume (cfg.messageAmount * cfg.batchSize) = .ok [] →
      raised (iteration2 cfg env vu iter) = none ∧
      topicChecks (iteration2 cfg env vu iter).2.trace = [] ∧
      indexReads (iteration2 cfg env vu iter).2.trace = [] ∧
      (iteration2 cfg env vu iter).2.trace.count .closeReader = 1 ∧
      (iteration2 cfg env vu iter).2.trace.getLast? = some .closeReader) ∧
    (∀ m rest, env.consume (cfg.messageAmount * cfg.batchSize) = .ok (m :: rest) →
      raised (iteration2 cfg env vu iter) = none ∧
      (topicChecks (iteration2 cfg env vu iter).2.trace).length = 1 ∧
      indexReads (iteration2 cfg env vu iter).2.trace = [0]) := by
  constructor
  · intro hc
    rcases iteration2_trace cfg env vu iter hp with ⟨e, hce, _, _⟩ | ⟨msgs, hc1, hr, h⟩
    · rw [hc] at hce
      cases hce
    · rw [hc] at hc1
      cases hc1
      refine ⟨hr, ?_, ?_, ?_, ?_⟩
      · rw [h, topicChecks_append, topicChecks_writeTrace2, topicChecks_readTrace2_nil]
        rfl
      · rw [h, indexReads_append, indexReads_writeTrace2]
        rfl
      · rw [h, List.count_append, count_closeReader_writeTrace2,
          (counts_readTrace2 cfg vu iter []).1]
      · rw [h]
        simp [readTrace2]
  · intro m rest hc
    rcases iteration2_trace cfg env vu iter hp with ⟨e, hce, _, _⟩ | ⟨msgs, hc1, hr, h⟩
    · rw [hc] at hce
      cases hce
    · rw [hc] at hc1
      cases hc1
      refine ⟨hr, ?_, ?_⟩
      · rw [h, topicChecks_append, topicChecks_writeTrace2, topicChecks_readTrace2]
        rfl
      · rw [h, indexReads_append, indexReads_writeTrace2]
        rfl

/-- C10, with the constants of `test-scenario-2.js` and an empty result. -/
theorem empty_result_skips_topic_check_witness :
    raised (iteration2 script2Config (replyEnv (.ok [])) 1 0) = none ∧
    topicChecks (iteration2 script2Config (replyEnv (.ok [])) 1 0).2.trace = [] ∧
    indexReads (iteration2 script2Config (replyEnv (.ok [])) 1 0).2.trace = [] ∧
    (iteration2 script2Config (replyEnv (.ok [])) 1 0).2.trace.count .closeReader = 1 ∧
    (iteration2 script2Config (replyEnv (.ok [])) 1 0).2.trace.getLast? = some .closeReader :=
  (empty_result_skips_topic_check script2Config (replyEnv (.ok [])) 1 0 (fun _ _ => rfl)).1 rfl

end KafkaScenario
